import Mathlib

/-!
# The network entity of the connection manager (`src/network.c`)

A shallow embedding of `src/network.c`: the network record, the driver
registry, the bus handlers, the connection state machine and the
persistence adapter, followed by the properties proved about them.

Conventions of the embedding

* A C pointer is a `Nat` address; a nullable pointer is an `Option`.
  Driver and device structures live outside the module and are read
  through `Env.driver` and `Env.device`.
* Every call that leaves the module (bus signals, device functions,
  element tree functions, driver callbacks, the storage layer) is appended
  to `World.calls` in the order in which the C code makes it.
* Outcomes the C code branches on but does not decide itself (allocation
  results, results of external calls) are fields of `Env`.
* A driver callback is represented by the result it returns; what a driver
  does by calling back into the module is a separate operation of the
  module.
-/

namespace Connman

/-! ## Constants and enumerations -/

/-- Linux errno value ENOENT. -/
def ENOENT : Int := 2

/-- Linux errno value EIO. -/
def EIO : Int := 5

/-- Linux errno value ENODEV. -/
def ENODEV : Int := 19

/-- Linux errno value EINVAL. -/
def EINVAL : Int := 22

/-- Linux errno value EILSEQ. -/
def EILSEQ : Int := 84

/-- Linux errno value ENOTCONN. -/
def ENOTCONN : Int := 107

/-- Linux errno value EALREADY. -/
def EALREADY : Int := 114

/-- Linux errno value EINPROGRESS. -/
def EINPROGRESS : Int := 115

/-- Modelled from the spec: `enum connman_network_type` (declared in a header
that is not under src/); section 3 lists wifi, wimax, bluetooth-pan,
bluetooth-dun, cellular, vendor, unknown, and `type2string` names the
constants. -/
inductive connman_network_type
  | UNKNOWN
  | VENDOR
  | WIFI
  | WIMAX
  | BLUETOOTH_PAN
  | BLUETOOTH_DUN
  | HSO
deriving DecidableEq, Repr

/-- Modelled from the spec: `enum connman_network_protocol` (header not under
src/); the three constants are the cases of the switch in
`connman_network_set_connected`. -/
inductive connman_network_protocol
  | UNKNOWN
  | IP
  | PPP
deriving DecidableEq, Repr

/-- Modelled from the spec: the constants of `enum connman_element_type` that
`network.c` names (header not under src/). -/
inductive connman_element_type
  | UNKNOWN
  | NETWORK
  | DHCP
  | PPP
deriving DecidableEq, Repr

/-- Modelled from the spec: `enum connman_device_mode` (header not under src/);
`do_connect` compares with `NETWORK_SINGLE`. -/
inductive connman_device_mode
  | UNKNOWN
  | NETWORK_SINGLE
  | NETWORK_MULTIPLE
  | TRANSPORT_IP
deriving DecidableEq, Repr

/-- Modelled from the spec: the three privilege levels consulted per call
(section 6: public, modify, secret). -/
inductive connman_security_privilege
  | PUBLIC
  | MODIFY
  | SECRET
deriving DecidableEq, Repr

/-! ## The network record -/

/-- The part of `struct connman_element` that `network.c` reads or writes. -/
structure connman_element where
  name : Option String
  path : Option String
  index : Int
  type : connman_element_type
deriving DecidableEq, Repr

/-- The anonymous `wifi` member of `struct connman_network`. -/
structure connman_network_wifi where
  ssid : Option (List Nat)
  ssid_len : Int
  mode : Option String
  security : Option String
  passphrase : Option String
deriving DecidableEq, Repr

/-- The record `struct connman_network`. `priority` and `strength` are
`connman_uint8_t` (writes reduce modulo 256); `driver` and `device` are
pointers; the identifier is the string given to `connman_network_create`. -/
structure connman_network where
  element : connman_element
  type : connman_network_type
  protocol : connman_network_protocol
  available : Bool
  connected : Bool
  remember : Bool
  priority : Nat
  strength : Nat
  identifier : String
  name : Option String
  node : Option String
  driver : Option Nat
  driver_data : Option Nat
  registered : Bool
  device : Option Nat
  wifi : connman_network_wifi
deriving DecidableEq, Repr

/-- Modelled from the spec: `struct connman_network_driver` (header not under
src/): a type filter, an int priority, `probe`, and the optional `remove`,
`connect` and `disconnect` callbacks (section 4.1). A callback is given by the
value it returns for the network it is called on. -/
structure connman_network_driver where
  name : String
  type : connman_network_type
  priority : Int
  probe : connman_network → Int
  remove : Option (connman_network → Unit)
  connect : Option (connman_network → Int)
  disconnect : Option (connman_network → Int)

/-- Modelled from the spec: what `network.c` reads from the owning device
through `connman_device_get_path`, `connman_device_get_name` and
`connman_device_get_mode` (device.c is not under src/). -/
structure connman_device where
  path : Option String
  name : Option String
  mode : connman_device_mode
deriving DecidableEq, Repr

/-! ## Bus values -/

/-- A value on the wire, with the wire types the handlers distinguish. -/
inductive dbus_value
  | boolean (b : Bool)
  | string (s : String)
  | byte (n : Nat)
  | object_path (s : String)
  | byte_array (bytes : List Nat)
  | other (type : Nat)
deriving DecidableEq, Repr

/-- An inbound method call: the outcome of `__connman_security_check_privilege`
for each privilege level (security.c is not under src/, the outcome is an
input), and the `(name, value)` arguments when the message has any. -/
structure DBusMessage where
  privilege : connman_security_privilege → Int
  args : Option (String × dbus_value)

/-- What a handler returns: one of the three bus errors, an empty method
return, a method return carrying a property dictionary, or `NULL`. -/
inductive DBusReply
  | permission_denied
  | invalid_arguments
  | failed
  | reply
  | properties (dict : List (String × dbus_value))
  | NULL
deriving DecidableEq, Repr

/-- The dictionary entries of a reply (none unless it carries properties). -/
def DBusReply.entries : DBusReply → List (String × dbus_value)
  | .properties dict => dict
  | _ => []

/-! ## Persistent store -/

/-- GLib key file as parsed with flags 0: the value stored under a group name
and key, and whether the key file has a group at all (without one it
serialises to zero bytes). String values are kept unescaped: the escaping of
`g_key_file_set_string` is undone by `g_key_file_get_string`. -/
structure GKeyFile where
  value : String → String → Option String
  has_group : Bool

/-- Contents of a file of the store, as far as `network_load` and
`network_save` can tell: zero length, data the key file parser rejects, or
data that parses. For data that parses, `keyfile` is what
`g_key_file_load_from_data` with flags 0 keeps and `unkept` are the lines it
does not keep: comments and translations for other locales. -/
inductive file_contents
  | empty
  | malformed
  | key_file (keyfile : GKeyFile) (unkept : List String)

/-! ## Calls leaving the module -/

/-- One call made by `network.c` on a collaborator. -/
inductive call
  | send_PropertyChanged (path : Option String) (key : String) (value : Bool)
  | send_Networks (device : Option Nat)
  | device_increase_connections (device : Option Nat)
  | device_decrease_connections (device : Option Nat)
  | device_set_network (device : Option Nat) (network : Option String)
  | device_set_disconnected (device : Option Nat) (disconnected : Bool)
  | device_disconnect (device : Option Nat)
  | element_create
  | element_register (type : connman_element_type) (index : Int)
  | element_unref
  | element_unregister_children
  | storage_save_network
  | driver_probe (driver : Nat)
  | driver_remove (driver : Nat)
  | driver_connect (driver : Nat)
  | driver_disconnect (driver : Nat)
  | dbus_register_interface (path : Option String)
  | dbus_unregister_interface (path : Option String)
deriving DecidableEq, Repr

/-- What lies outside the module: memory holding the driver and device
structures, the `STORAGEDIR` constant, and the outcomes of allocations and
external calls the code branches on. `g_file_get_contents` is false when
reading a file fails although it exists, `g_file_set_contents` is false when
writing fails, `g_utf8_validate` tells whether the C string a `String` stands
for is valid UTF-8 (drivers may hand in arbitrary bytes). -/
structure Env where
  driver : Nat → connman_network_driver
  device : Nat → connman_device
  STORAGEDIR : String
  dbus_message_new_signal : Bool
  dbus_message_new_method_return : Bool
  connman_element_create : Bool
  connman_element_register : Int
  g_dbus_register_interface : Bool
  g_try_malloc : Bool
  g_key_file_load_empty : Bool
  g_file_get_contents : Bool
  g_file_set_contents : Bool
  g_utf8_validate : String → Bool

/-- State the module works on: one network, the global `driver_list`, the
calls made so far (oldest first) and the files of the store by path name. -/
structure World where
  network : connman_network
  driver_list : List Nat
  calls : List call
  files : String → Option file_contents

/-- Record a call on a collaborator. -/
def World.log (w : World) (c : call) : World :=
  { w with calls := w.calls ++ [c] }

/-- Modelled from the spec: `connman_device_get_path` (device.c is not under
src/) reads the path the device exposes, if any. -/
def connman_device_get_path (env : Env) (device : Option Nat) : Option String :=
  match device with
  | some d => (env.device d).path
  | none => none

/-- Modelled from the spec: `connman_device_get_name` (device.c is not under
src/) reads the name after which the device's store is named. -/
def connman_device_get_name (env : Env) (device : Option Nat) : Option String :=
  match device with
  | some d => (env.device d).name
  | none => none

/-- Modelled from the spec: `connman_device_get_mode` (device.c is not under
src/). -/
def connman_device_get_mode (env : Env) (device : Option Nat) : connman_device_mode :=
  match device with
  | some d => (env.device d).mode
  | none => connman_device_mode.UNKNOWN

/-- Modelled from the spec: the device's active-connection counter (device.c
is not under src/), as the number of `increase-connection-count` calls made on
the device minus the number of `decrease-connection-count` calls. -/
def device_connections (device : Option Nat) : List call → Int
  | [] => 0
  | call.device_increase_connections d :: rest =>
      (if d = device then 1 else 0) + device_connections device rest
  | call.device_decrease_connections d :: rest =>
      (if d = device then -1 else 0) + device_connections device rest
  | _ :: rest => device_connections device rest

/-- Modelled from the spec: the device's current-network reference (device.c
is not under src/), as the argument of the latest `set-current-network` call
made on the device, starting from `start`. -/
def device_network (device : Option Nat) (start : Option String) : List call → Option String
  | [] => start
  | call.device_set_network d n :: rest =>
      device_network device (if d = device then n else start) rest
  | _ :: rest => device_network device start rest

/-! ## Connection state machine -/

/-- The function `connman_network_set_available`. -/
def connman_network_set_available (env : Env) (w : World) (available : Bool) : World × Int :=
  if w.network.available = available then (w, -EALREADY)
  else
    let w := { w with network := { w.network with available := available } }
    if w.network.registered = false then (w, 0)
    else if w.network.connected = true then (w, 0)
    else if w.network.remember = false then (w, 0)
    else if env.dbus_message_new_signal = false then (w, 0)
    else (w.log (call.send_PropertyChanged w.network.element.path "Available" available), 0)

/-- The element type of the child that `connman_network_set_connected` creates
for a protocol; `none` is the `return 0` of the switch. -/
def child_type : connman_network_protocol → Option connman_element_type
  | connman_network_protocol.UNKNOWN => none
  | connman_network_protocol.IP => some connman_element_type.DHCP
  | connman_network_protocol.PPP => some connman_element_type.PPP

/-- The function `connman_network_set_connected`. -/
def connman_network_set_connected (env : Env) (w : World) (connected : Bool) : World × Int :=
  if w.network.connected = connected then (w, -EALREADY)
  else
    let w := { w with network := { w.network with connected := connected } }
    if w.network.registered = false then (w, 0)
    else if env.dbus_message_new_signal = false then (w, 0)
    else
      let w := w.log (call.send_PropertyChanged w.network.element.path "Connected" connected)
      if connected = true then
        match child_type w.network.protocol with
        | none => (w, 0)
        | some type =>
          let w := w.log (call.device_increase_connections w.network.device)
          let w := w.log (call.device_set_network w.network.device (some w.network.identifier))
          let w := w.log (call.device_set_disconnected w.network.device false)
          let w := w.log call.element_create
          if env.connman_element_create = true then
            let w := w.log (call.element_register type w.network.element.index)
            if env.connman_element_register < 0 then (w.log call.element_unref, 0)
            else (w, 0)
          else (w, 0)
      else
        let w := w.log call.element_unregister_children
        let w := w.log (call.device_set_network w.network.device none)
        let w := w.log (call.device_decrease_connections w.network.device)
        (w, 0)

/-- The function `connman_network_set_remember`. -/
def connman_network_set_remember (env : Env) (w : World) (remember : Bool) : World × Int :=
  if w.network.remember = remember then (w, -EALREADY)
  else
    let w := { w with network := { w.network with remember := remember } }
    if w.network.registered = false then (w, 0)
    else if env.dbus_message_new_signal = false then (w, 0)
    else (w.log (call.send_PropertyChanged w.network.element.path "Remember" remember), 0)

/-- The test `network->driver && network->driver->connect`: the bound driver
and its connect callback. -/
def bound_connect (env : Env) (network : connman_network) :
    Option (Nat × (connman_network → Int)) :=
  match network.driver with
  | none => none
  | some d =>
    match (env.driver d).connect with
    | none => none
    | some connect => some (d, connect)

/-- The test `network->driver && network->driver->disconnect`. -/
def bound_disconnect (env : Env) (network : connman_network) :
    Option (Nat × (connman_network → Int)) :=
  match network.driver with
  | none => none
  | some d =>
    match (env.driver d).disconnect with
    | none => none
    | some disconnect => some (d, disconnect)

/-- The function `connman_network_connect`. -/
def connman_network_connect (env : Env) (w : World) : World × Int :=
  if w.network.connected = true then (w, -EALREADY)
  else
    match bound_connect env w.network with
    | some (d, connect) => (w.log (call.driver_connect d), connect w.network)
    | none => ({ w with network := { w.network with connected := true } }, 0)

/-- The function `__connman_network_disconnect`. -/
def __connman_network_disconnect (env : Env) (w : World) : World × Int :=
  if w.network.connected = false then (w, -ENOTCONN)
  else
    match bound_disconnect env w.network with
    | some (d, disconnect) => (w.log (call.driver_disconnect d), disconnect w.network)
    | none => ({ w with network := { w.network with connected := false } }, 0)

/-! ## Bus handlers -/

/-- The handler `do_connect` (bus method `Connect`). -/
def do_connect (env : Env) (w : World) (msg : DBusMessage) : World × DBusReply :=
  if msg.privilege connman_security_privilege.MODIFY < 0 then (w, DBusReply.permission_denied)
  else if w.network.connected = true then (w, DBusReply.failed)
  else
    match bound_connect env w.network with
    | some (d, connect) =>
      let w :=
        if connman_device_get_mode env w.network.device = connman_device_mode.NETWORK_SINGLE then
          w.log (call.device_disconnect w.network.device)
        else w
      let err := connect w.network
      let w := w.log (call.driver_connect d)
      if err < 0 ∧ err ≠ -EINPROGRESS then (w, DBusReply.failed)
      else (w, DBusReply.reply)
    | none => ({ w with network := { w.network with connected := true } }, DBusReply.reply)

/-- The handler `do_disconnect` (bus method `Disconnect`). -/
def do_disconnect (env : Env) (w : World) (msg : DBusMessage) : World × DBusReply :=
  if msg.privilege connman_security_privilege.MODIFY < 0 then (w, DBusReply.permission_denied)
  else if w.network.connected = false then (w, DBusReply.failed)
  else
    let w := w.log call.element_unregister_children
    let w := w.log (call.device_set_disconnected w.network.device true)
    match bound_disconnect env w.network with
    | some (d, disconnect) =>
      let err := disconnect w.network
      let w := w.log (call.driver_disconnect d)
      if err < 0 ∧ err ≠ -EINPROGRESS then (w, DBusReply.failed)
      else (w, DBusReply.reply)
    | none => ({ w with network := { w.network with connected := false } }, DBusReply.reply)

/-- The tail of `set_property` after an accepted request: the storage layer is
asked to save the network and an empty reply is returned. -/
def set_property_save (w : World) : World × DBusReply :=
  (w.log call.storage_save_network, DBusReply.reply)

/-- The handler `set_property` (bus method `SetProperty`). -/
def set_property (w : World) (msg : DBusMessage) : World × DBusReply :=
  match msg.args with
  | none => (w, DBusReply.invalid_arguments)
  | some (name, value) =>
    if msg.privilege connman_security_privilege.MODIFY < 0 then
      (w, DBusReply.permission_denied)
    else if name = "Remember" then
      match value with
      | dbus_value.boolean remember =>
        if w.network.remember = remember then (w, DBusReply.invalid_arguments)
        else set_property_save { w with network := { w.network with remember := remember } }
      | _ => (w, DBusReply.invalid_arguments)
    else if name = "WiFi.Passphrase" then
      match value with
      | dbus_value.string passphrase =>
        if msg.privilege connman_security_privilege.SECRET < 0 then
          (w, DBusReply.permission_denied)
        else
          set_property_save { w with network := { w.network with
            wifi := { w.network.wifi with passphrase := some passphrase } } }
      | _ => (w, DBusReply.invalid_arguments)
    else if name = "Priority" then
      match value with
      | dbus_value.byte priority =>
        set_property_save { w with network := { w.network with priority := priority % 256 } }
      | _ => (w, DBusReply.invalid_arguments)
    else set_property_save w

/-- The entry `(key, value)` when the condition holds, nothing otherwise: one
guarded `connman_dbus_dict_append_variant` call. -/
def dict_entry_if (cond : Bool) (key : String) (value : dbus_value) :
    List (String × dbus_value) :=
  if cond then [(key, value)] else []

/-- The handler `get_properties` (bus method `GetProperties`): the entries are
appended to the dictionary in the order of the source. -/
def get_properties (env : Env) (w : World) (msg : DBusMessage) : DBusReply :=
  if msg.privilege connman_security_privilege.PUBLIC < 0 then DBusReply.permission_denied
  else if env.dbus_message_new_method_return = false then DBusReply.NULL
  else
    let network := w.network
    DBusReply.properties (
      (match network.device with
        | some d =>
          match connman_device_get_path env (some d) with
          | some path => [("Device", dbus_value.object_path path)]
          | none => []
        | none => []) ++
      (match network.name with
        | some name => [("Name", dbus_value.string name)]
        | none => []) ++
      [("Available", dbus_value.boolean network.available)] ++
      [("Connected", dbus_value.boolean network.connected)] ++
      [("Remember", dbus_value.boolean network.remember)] ++
      dict_entry_if (network.priority > 0) "Priority" (dbus_value.byte network.priority) ++
      dict_entry_if (network.strength > 0) "Strength" (dbus_value.byte network.strength) ++
      (match network.wifi.ssid with
        | some ssid =>
          dict_entry_if (network.wifi.ssid_len > 0) "WiFi.SSID"
            (dbus_value.byte_array (ssid.take network.wifi.ssid_len.toNat))
        | none => []) ++
      (match network.wifi.mode with
        | some mode => [("WiFi.Mode", dbus_value.string mode)]
        | none => []) ++
      (match network.wifi.security with
        | some security => [("WiFi.Security", dbus_value.string security)]
        | none => []) ++
      (match network.wifi.passphrase with
        | some passphrase =>
          dict_entry_if (msg.privilege connman_security_privilege.SECRET = 0)
            "WiFi.Passphrase" (dbus_value.string passphrase)
        | none => []))

/-- The function `emit_networks_signal`: no signal without a device path or
when the signal cannot be allocated. -/
def emit_networks_signal (env : Env) (w : World) (device : Option Nat) : World :=
  match connman_device_get_path env device with
  | none => w
  | some _ =>
    if env.dbus_message_new_signal = false then w
    else w.log (call.send_Networks device)

/-- The function `register_interface`. -/
def register_interface (env : Env) (w : World) : World × Int :=
  let w := w.log (call.dbus_register_interface w.network.element.path)
  if env.g_dbus_register_interface = false then (w, - EIO)
  else
    let w := { w with network := { w.network with registered := true } }
    (emit_networks_signal env w w.network.device, 0)

/-- The function `unregister_interface`. -/
def unregister_interface (env : Env) (w : World) : World :=
  let w := { w with network := { w.network with registered := false } }
  let w := emit_networks_signal env w w.network.device
  w.log (call.dbus_unregister_interface w.network.element.path)

/-- The function `__connman_network_has_driver` (for a non-NULL network). -/
def __connman_network_has_driver (network : connman_network) : Bool :=
  match network.driver with
  | none => false
  | some _ => network.registered

/-! ## Driver registry -/

/-- A C `int` result: the mathematical value reduced to 32 bit two's
complement. -/
def int_wrap (x : Int) : Int :=
  (x + 2147483648) % 4294967296 - 2147483648

/-- The comparison `compare_priority`: `driver2->priority - driver1->priority`
computed in `int`. -/
def compare_priority (env : Env) (a b : Nat) : Int :=
  int_wrap ((env.driver b).priority - (env.driver a).priority)

/-- GLib `g_slist_insert_sorted`: walk the list while `func (data, element)` is
positive and put `data` in front of the first element where it is not, or
behind the last element when there is none. -/
def g_slist_insert_sorted (list : List Nat) (data : Nat) (func : Nat → Nat → Int) : List Nat :=
  match list with
  | [] => [data]
  | x :: rest =>
    if func data x > 0 then x :: g_slist_insert_sorted rest data func
    else data :: x :: rest

/-- GLib `g_slist_remove`: drop the first element whose data pointer is
`data`. -/
def g_slist_remove (list : List Nat) (data : Nat) : List Nat :=
  match list with
  | [] => []
  | x :: rest => if x = data then rest else x :: g_slist_remove rest data

/-- The function `connman_network_driver_register`. -/
def connman_network_driver_register (env : Env) (w : World) (driver : Nat) : World × Int :=
  ({ w with driver_list := g_slist_insert_sorted w.driver_list driver (compare_priority env) }, 0)

/-- The function `connman_network_driver_unregister`. -/
def connman_network_driver_unregister (w : World) (driver : Nat) : World :=
  { w with driver_list := g_slist_remove w.driver_list driver }

/-- The function `match_driver`. -/
def match_driver (network : connman_network) (driver : connman_network_driver) : Bool :=
  if network.type = driver.type ∨ driver.type = connman_network_type.UNKNOWN then true
  else false

/-- The loop of `network_probe` over the remaining part of `driver_list`. -/
def network_probe_loop (env : Env) : List Nat → World → World
  | [], w => w
  | driver :: list, w =>
    if match_driver w.network (env.driver driver) = false then network_probe_loop env list w
    else
      let w := w.log (call.driver_probe driver)
      if (env.driver driver).probe w.network = 0 then
        { w with network := { w.network with driver := some driver } }
      else network_probe_loop env list w

/-- The function `network_probe` (for an element that carries a network). -/
def network_probe (env : Env) (w : World) : World × Int :=
  let w := network_probe_loop env w.driver_list w
  match w.network.driver with
  | none => (w, -ENODEV)
  | some driver =>
    let (w, err) := register_interface env w
    if err < 0 then
      match (env.driver driver).remove with
      | some _ => (w.log (call.driver_remove driver), err)
      | none => (w, err)
    else (w, 0)

/-- The function `network_remove` (for an element that carries a network). -/
def network_remove (env : Env) (w : World) : World :=
  match w.network.driver with
  | none => w
  | some driver =>
    let w := unregister_interface env w
    match (env.driver driver).remove with
    | some _ => w.log (call.driver_remove driver)
    | none => w

/-! ## Construction and attribute accessors -/

/-- The function `connman_network_create` (allocation succeeding): a zeroed
record with the identifier, the type and the element set up. `index` is the
index `__connman_element_initialize` leaves in the element (element.c is not
under src/). -/
def connman_network_create (identifier : String) (type : connman_network_type)
    (index : Int) : connman_network :=
  { element := { name := some identifier, path := none, index := index,
                 type := connman_element_type.NETWORK }
    type := type
    protocol := connman_network_protocol.UNKNOWN
    available := false
    connected := false
    remember := false
    priority := 0
    strength := 0
    identifier := identifier
    name := none
    node := none
    driver := none
    driver_data := none
    registered := false
    device := none
    wifi := { ssid := none, ssid_len := 0, mode := none, security := none, passphrase := none } }

/-- The function `__connman_network_set_device`. -/
def __connman_network_set_device (network : connman_network) (device : Option Nat) :
    connman_network :=
  { network with device := device }

/-- The function `connman_network_set_protocol`. -/
def connman_network_set_protocol (network : connman_network)
    (protocol : connman_network_protocol) : connman_network :=
  { network with protocol := protocol }

/-- The function `connman_network_set_string` (`value` may be NULL). -/
def connman_network_set_string (network : connman_network) (key : String)
    (value : Option String) : connman_network × Int :=
  if key = "Name" then ({ network with name := value }, 0)
  else if key = "Node" then ({ network with node := value }, 0)
  else if key = "WiFi.Mode" then
    ({ network with wifi := { network.wifi with mode := value } }, 0)
  else if key = "WiFi.Security" then
    ({ network with wifi := { network.wifi with security := value } }, 0)
  else if key = "WiFi.Passphrase" then
    ({ network with wifi := { network.wifi with passphrase := value } }, 0)
  else (network, 0)

/-- The function `connman_network_get_string`. -/
def connman_network_get_string (network : connman_network) (key : String) : Option String :=
  if key = "Name" then network.name
  else if key = "Node" then network.node
  else if key = "WiFi.Mode" then network.wifi.mode
  else if key = "WiFi.Security" then network.wifi.security
  else if key = "WiFi.Passphrase" then network.wifi.passphrase
  else none

/-- The function `connman_network_set_uint8`. -/
def connman_network_set_uint8 (network : connman_network) (key : String) (value : Nat) :
    connman_network × Int :=
  if key = "Priority" then ({ network with priority := value % 256 }, 0)
  else if key = "Strength" then ({ network with strength := value % 256 }, 0)
  else (network, 0)

/-- The function `connman_network_get_uint8`. -/
def connman_network_get_uint8 (network : connman_network) (key : String) : Nat :=
  if key = "Priority" then network.priority
  else if key = "Strength" then network.strength
  else 0

/-- The function `connman_network_set_blob`: `data` holds at least `size`
bytes, of which `size` are copied; `size` is an `unsigned int` stored into the
`int` field `ssid_len`. GLib `g_try_malloc` returns NULL for a request of zero
bytes and otherwise when the allocation fails. -/
def connman_network_set_blob (env : Env) (network : connman_network) (key : String)
    (data : List Nat) (size : Nat) : connman_network × Int :=
  if key = "WiFi.SSID" then
    if size ≠ 0 ∧ env.g_try_malloc = true then
      ({ network with wifi := { network.wifi with
          ssid := some (data.take size), ssid_len := int_wrap size } }, 0)
    else
      ({ network with wifi := { network.wifi with ssid := none, ssid_len := 0 } }, 0)
  else (network, 0)

/-- The function `connman_network_get_blob` with a non-NULL `size` pointer:
the blob and the value stored through `size` (an `unsigned int`). -/
def connman_network_get_blob (network : connman_network) (key : String) :
    Option (List Nat) × Option Nat :=
  if key = "WiFi.SSID" then
    (network.wifi.ssid, some (network.wifi.ssid_len % 4294967296).toNat)
  else (none, none)

/-! ## Persistence adapter -/

/-- The empty key file made by `g_key_file_new`. -/
def g_key_file_new : GKeyFile :=
  { value := fun _ _ => none, has_group := false }

/-- GLib `g_key_file_load_from_data` with flags 0: `none` when the data is
rejected. What the parser makes of zero-length data differs between GLib
versions and is an input. -/
def g_key_file_load_from_data (env : Env) : file_contents → Option GKeyFile
  | file_contents.empty => if env.g_key_file_load_empty = true then some g_key_file_new else none
  | file_contents.malformed => none
  | file_contents.key_file keyfile _ => some keyfile

/-- GLib `g_key_file_to_data`: a key file without a group serialises to zero
bytes; comments and translations that were not kept at parse time are not
written. -/
def g_key_file_to_data (keyfile : GKeyFile) : file_contents :=
  if keyfile.has_group = true then file_contents.key_file keyfile []
  else file_contents.empty

/-- GLib `g_ascii_iscntrl`. -/
def g_ascii_iscntrl (c : Char) : Bool :=
  decide (c.toNat < 32) || decide (c.toNat = 127)

/-- GLib `g_key_file_is_group_name`: not empty, without `[`, `]` and control
characters. -/
def g_key_file_is_group_name (name : String) : Bool :=
  !name.data.isEmpty &&
    name.data.all (fun c => !(c == '[') && !(c == ']') && !g_ascii_iscntrl c)

/-- GLib `g_key_file_set_value` for a valid key name: the call is ignored when
the group name is not valid. -/
def g_key_file_set_value (keyfile : GKeyFile) (group key value : String) : GKeyFile :=
  if g_key_file_is_group_name group = true then
    { value := fun g k => if g = group ∧ k = key then some value else keyfile.value g k
      has_group := true }
  else keyfile

/-- GLib `g_key_file_set_boolean`: the text `true` or `false`. -/
def g_key_file_set_boolean (keyfile : GKeyFile) (group key : String) (value : Bool) : GKeyFile :=
  g_key_file_set_value keyfile group key (if value = true then "true" else "false")

/-- GLib `g_key_file_set_integer`: the decimal text of the value. -/
def g_key_file_set_integer (keyfile : GKeyFile) (group key : String) (value : Int) : GKeyFile :=
  g_key_file_set_value keyfile group key (toString value)

/-- GLib `g_key_file_set_string`. -/
def g_key_file_set_string (keyfile : GKeyFile) (group key value : String) : GKeyFile :=
  g_key_file_set_value keyfile group key value

/-- GLib `g_key_file_get_value` with a NULL error pointer: nothing is found
under a name that is not a valid group name. -/
def g_key_file_get_value (keyfile : GKeyFile) (group key : String) : Option String :=
  if g_key_file_is_group_name group = true then keyfile.value group key else none

/-- GLib `g_key_file_get_boolean` with a NULL error pointer: TRUE for the
texts `true` and `1`, FALSE otherwise (also when the key is missing). -/
def g_key_file_get_boolean (keyfile : GKeyFile) (group key : String) : Bool :=
  match g_key_file_get_value keyfile group key with
  | some value => if value = "true" ∨ value = "1" then true else false
  | none => false

/-- Value of a run of decimal digits, `none` when another character occurs. -/
def decimal_digits : List Char → Nat → Option Nat
  | [], acc => some acc
  | c :: cs, acc =>
    if c.isDigit then decimal_digits cs (acc * 10 + (c.toNat - 48)) else none

/-- The integer a key file value stands for: an optional sign and decimal
digits within the range of `int`; 0 is what `g_key_file_get_integer` returns
when the text is not such a number. -/
def key_file_integer (value : String) : Int :=
  match value.data with
  | [] => 0
  | '-' :: cs =>
    if cs = [] then 0
    else match decimal_digits cs 0 with
      | some n => if n ≤ 2147483648 then -(n : Int) else 0
      | none => 0
  | '+' :: cs =>
    if cs = [] then 0
    else match decimal_digits cs 0 with
      | some n => if n < 2147483648 then (n : Int) else 0
      | none => 0
  | cs =>
    match decimal_digits cs 0 with
    | some n => if n < 2147483648 then (n : Int) else 0
    | none => 0

/-- GLib `g_key_file_get_integer` with a NULL error pointer. -/
def g_key_file_get_integer (keyfile : GKeyFile) (group key : String) : Int :=
  match g_key_file_get_value keyfile group key with
  | some value => key_file_integer value
  | none => 0

/-- GLib `g_key_file_get_string` with a NULL error pointer: NULL when the key
is missing and when the value is not valid UTF-8. -/
def g_key_file_get_string (env : Env) (keyfile : GKeyFile) (group key : String) :
    Option String :=
  match g_key_file_get_value keyfile group key with
  | some value => if env.g_utf8_validate value = true then some value else none
  | none => none

/-- The path name `STORAGEDIR/<device name>.conf` of a device's store. -/
def storage_pathname (env : Env) (name : String) : String :=
  env.STORAGEDIR ++ "/" ++ name ++ ".conf"

/-- GLib `g_file_get_contents`: `none` when the file is missing and when
reading it fails. -/
def g_file_get_contents (env : Env) (files : String → Option file_contents)
    (pathname : String) : Option file_contents :=
  if env.g_file_get_contents = true then files pathname else none

/-- GLib `g_file_set_contents`: the file is replaced as a whole, or left as it
was when writing fails. -/
def g_file_set_contents (env : Env) (files : String → Option file_contents)
    (pathname : String) (data : file_contents) : String → Option file_contents :=
  if env.g_file_set_contents = true then
    fun p => if p = pathname then some data else files p
  else files

/-- The function `network_load`. -/
def network_load (env : Env) (w : World) : World × Int :=
  match connman_device_get_name env w.network.device with
  | none => (w, -EINVAL)
  | some name =>
    match g_file_get_contents env w.files (storage_pathname env name) with
    | none => (w, -ENOENT)
    | some data =>
      match g_key_file_load_from_data env data with
      | none => (w, -EILSEQ)
      | some keyfile =>
        let identifier := w.network.identifier
        let remember := g_key_file_get_boolean keyfile identifier "Remember"
        let val := g_key_file_get_integer keyfile identifier "Priority"
        let priority := if val > 0 then (val % 256).toNat else w.network.priority
        let security := g_key_file_get_string env keyfile identifier "WiFi.Security"
        let passphrase := g_key_file_get_string env keyfile identifier "WiFi.Passphrase"
        ({ w with network := { w.network with
            remember := remember
            priority := priority
            wifi := { w.network.wifi with security := security, passphrase := passphrase } } }, 0)

/-- The part of `network_save` from the label `update` on: the record of the
network is updated in the key file. -/
def network_save_update (network : connman_network) (keyfile : GKeyFile) : GKeyFile :=
  let keyfile := g_key_file_set_boolean keyfile network.identifier "Remember" network.remember
  let keyfile :=
    if network.priority > 0 then
      g_key_file_set_integer keyfile network.identifier "Priority" network.priority
    else keyfile
  if network.remember = true ∨ network.connected = true then
    let keyfile :=
      match network.wifi.security with
      | some security =>
        g_key_file_set_string keyfile network.identifier "WiFi.Security" security
      | none => keyfile
    match network.wifi.passphrase with
    | some passphrase =>
      g_key_file_set_string keyfile network.identifier "WiFi.Passphrase" passphrase
    | none => keyfile
  else keyfile

/-- The key file `network_save` starts from. Any failure of
`g_file_get_contents` (no file, or a file that cannot be read) is the
`goto update` with the new, empty key file; data of zero length is not parsed;
`none` is the `goto done` taken when data of positive length does not parse. -/
def network_save_start (env : Env) (files : String → Option file_contents)
    (pathname : String) : Option GKeyFile :=
  match g_file_get_contents env files pathname with
  | none => some g_key_file_new
  | some file_contents.empty => some g_key_file_new
  | some file_contents.malformed => none
  | some (file_contents.key_file keyfile _) => some keyfile

/-- The function `network_save`: the serialised key file replaces the file
when `g_file_set_contents` succeeds; its result is not looked at and 0 is
returned either way. -/
def network_save (env : Env) (w : World) : World × Int :=
  match connman_device_get_name env w.network.device with
  | none => (w, -EINVAL)
  | some name =>
    let pathname := storage_pathname env name
    match network_save_start env w.files pathname with
    | none => (w, 0)
    | some keyfile =>
      let keyfile := network_save_update w.network keyfile
      let data := g_key_file_to_data keyfile
      ({ w with files := g_file_set_contents env w.files pathname data }, 0)

/-! ## Operations of the state machine as a step function -/

/-- The operations that change `connected`: the two setters' callers listed
by the state machine and the two bus handlers. -/
inductive network_op
  | set_connected (connected : Bool)
  | connect
  | disconnect
  | bus_connect (msg : DBusMessage)
  | bus_disconnect (msg : DBusMessage)

/-- Run one operation. -/
def network_op.step (env : Env) (w : World) : network_op → World
  | network_op.set_connected connected => (connman_network_set_connected env w connected).1
  | network_op.connect => (connman_network_connect env w).1
  | network_op.disconnect => (__connman_network_disconnect env w).1
  | network_op.bus_connect msg => (do_connect env w msg).1
  | network_op.bus_disconnect msg => (do_disconnect env w msg).1

/-- Run a sequence of operations, first to last. -/
def network_op.run (env : Env) : List network_op → World → World
  | [], w => w
  | op :: ops, w => network_op.run env ops (network_op.step env w op)

/-! ## Concrete inputs used by the examples -/

/-- A driver that claims every network and has no optional callback. -/
def example_driver (type : connman_network_type) (priority : Int) : connman_network_driver :=
  { name := "example", type := type, priority := priority, probe := fun _ => 0,
    remove := none, connect := none, disconnect := none }

/-- A device named `wlan0` in single-network mode. -/
def example_device : connman_device :=
  { path := some "/wlan0", name := some "wlan0",
    mode := connman_device_mode.NETWORK_SINGLE }

/-- An environment in which every allocation and external call succeeds. -/
def example_env : Env :=
  { driver := fun _ => example_driver connman_network_type.WIFI 0
    device := fun _ => example_device
    STORAGEDIR := "/var/lib/connman"
    dbus_message_new_signal := true
    dbus_message_new_method_return := true
    connman_element_create := true
    connman_element_register := 0
    g_dbus_register_interface := true
    g_try_malloc := true
    g_key_file_load_empty := false
    g_file_get_contents := true
    g_file_set_contents := true
    g_utf8_validate := fun _ => true }

/-- A freshly created wifi network attached to device 1. -/
def example_network : connman_network :=
  __connman_network_set_device
    (connman_network_create "net0" connman_network_type.WIFI (-1)) (some 1)

/-- The world holding the fresh network, no driver and an empty store. -/
def example_world : World :=
  { network := example_network, driver_list := [], calls := [], files := fun _ => none }

/-- The fresh network after a successful registration, with protocol ip. -/
def example_registered : World :=
  { example_world with network := { example_network with
      registered := true, driver := some 7, protocol := connman_network_protocol.IP } }

/-- The registered network in the connected state. -/
def example_connected : World :=
  { example_registered with network := { example_registered.network with connected := true } }

/-- A wifi driver with all four callbacks; connect reports that the
connection is in progress. -/
def example_driver_full : connman_network_driver :=
  { name := "wifi", type := connman_network_type.WIFI, priority := 0, probe := fun _ => 0,
    remove := some (fun _ => ()), connect := some (fun _ => -EINPROGRESS),
    disconnect := some (fun _ => 0) }

/-- The example environment with the full driver in memory. -/
def example_env_full : Env :=
  { example_env with driver := fun _ => example_driver_full }

/-- A caller that passes every privilege check. -/
def example_msg : DBusMessage :=
  { privilege := fun _ => 0, args := none }

/-- A sequence of operations mixing the setter, the driver-facing entry points
and the bus handlers. -/
def example_ops : List network_op :=
  [network_op.bus_connect example_msg, network_op.set_connected true, network_op.connect,
   network_op.bus_disconnect example_msg, network_op.set_connected false,
   network_op.disconnect, network_op.set_connected true]

/-- A caller with public and modify privilege whose secret-privilege check
fails. -/
def example_msg_no_secret : DBusMessage :=
  { privilege := fun p =>
      match p with
      | connman_security_privilege.SECRET => -1
      | _ => 0
    args := none }

/-- The bus call `SetProperty (name, value)` from a fully privileged caller. -/
def example_set_property (name : String) (value : dbus_value) : DBusMessage :=
  { privilege := fun _ => 0, args := some (name, value) }

/-- The registered example network with a name, a security and a passphrase. -/
def example_secret_world : World :=
  { example_registered with network := { example_registered.network with
      name := some "home"
      wifi := { example_registered.network.wifi with
        security := some "wpa", passphrase := some "hunter2" } } }

/-! ## Operations of the driver registry as a step function -/

/-- The two operations on the driver registry. -/
inductive driver_op
  | register (driver : Nat)
  | unregister (driver : Nat)
deriving DecidableEq, Repr

/-- Run one registry operation. -/
def driver_op.step (env : Env) (w : World) : driver_op → World
  | driver_op.register driver => (connman_network_driver_register env w driver).1
  | driver_op.unregister driver => connman_network_driver_unregister w driver

/-- Run a sequence of registry operations, first to last. -/
def driver_op.run (env : Env) : List driver_op → World → World
  | [], w => w
  | op :: ops, w => driver_op.run env ops (driver_op.step env w op)

/-- The difference `driver2->priority - driver1->priority` of `compare_priority`
is representable in `int`. -/
def priority_difference_fits (env : Env) (a b : Nat) : Prop :=
  -2147483648 ≤ (env.driver b).priority - (env.driver a).priority ∧
  (env.driver b).priority - (env.driver a).priority < 2147483648

/-- Driver memory for the registry examples: two wifi drivers of priority 0 at
addresses 1 and 2, a wifi driver of priority `INT_MAX` at address 3 and a wifi
driver of priority -100 at address 4; all claim every network. -/
def example_driver_memory : Nat → connman_network_driver
  | 3 => example_driver connman_network_type.WIFI 2147483647
  | 4 => example_driver connman_network_type.WIFI (-100)
  | _ => example_driver connman_network_type.WIFI 0

/-- The example environment with the registry example drivers in memory. -/
def example_env_registry : Env :=
  { example_env with driver := example_driver_memory }

/-- Registry operations of the examples: three registrations with priorities
0, -100 and 0 and one removal. -/
def example_driver_ops : List driver_op :=
  [driver_op.register 1, driver_op.register 4, driver_op.register 2, driver_op.unregister 1]

/-- The drivers `network_probe_loop` calls `probe` on, in order: the drivers
of the list that match the network, up to and including the first whose probe
returns 0. -/
def probed_drivers (env : Env) (network : connman_network) (list : List Nat) : List Nat :=
  (list.filter (fun d => match_driver network (env.driver d))).takeWhile
      (fun d => decide ((env.driver d).probe network ≠ 0))
    ++ ((list.filter (fun d => match_driver network (env.driver d))).dropWhile
      (fun d => decide ((env.driver d).probe network ≠ 0))).take 1

/-! ## Reading the store back -/

/-- The value the device's store holds under the record of the network for a
key, `none` when there is no store, no record or no such key. -/
def stored_value (env : Env) (w : World) (key : String) : Option String :=
  match connman_device_get_name env w.network.device with
  | none => none
  | some name =>
    match w.files (storage_pathname env name) with
    | some (file_contents.key_file keyfile _) => keyfile.value w.network.identifier key
    | _ => none

/-- A key file whose record `net0` holds a security and a passphrase. -/
def example_keyfile : GKeyFile :=
  { value := fun group key =>
      if group = "net0" ∧ key = "WiFi.Security" then some "wpa"
      else if group = "net0" ∧ key = "WiFi.Passphrase" then some "hunter2"
      else none
    has_group := true }

/-- A store in which the file of device `wlan0` holds `example_keyfile`. -/
def example_files : String → Option file_contents := fun pathname =>
  if pathname = "/var/lib/connman/wlan0.conf" then
    some (file_contents.key_file example_keyfile [])
  else none

/-- A remembered network with priority 5, a security and a passphrase. -/
def example_remembered : World :=
  { example_world with
    network := { example_network with
      remember := true
      priority := 5
      wifi := { example_network.wifi with security := some "wpa2", passphrase := some "s3cret" } }
    files := example_files }

/-! ## Further inputs for the examples -/

/-- The registered example network with protocol ppp. -/
def example_registered_ppp : World :=
  { example_registered with network := { example_registered.network with
      protocol := connman_network_protocol.PPP } }

/-- The registered example network with protocol unknown. -/
def example_registered_unknown : World :=
  { example_registered with network := { example_registered.network with
      protocol := connman_network_protocol.UNKNOWN } }

/-- The example environment with the full driver in memory and a bus on which
the registration of the network object fails. -/
def example_env_no_bus : Env :=
  { example_env_full with g_dbus_register_interface := false }

/-- The fresh example network with the driver at address 7 registered. -/
def example_world_one_driver : World :=
  { example_world with driver_list := [7] }

/-- Driver memory with a wimax driver at address 1 and, everywhere else, a wifi
driver whose probe refuses every network. -/
def example_refusing_memory : Nat → connman_network_driver
  | 1 => example_driver connman_network_type.WIMAX 0
  | _ => { example_driver connman_network_type.WIFI 0 with probe := fun _ => -ENODEV }

/-- The example environment with the refusing drivers in memory. -/
def example_env_refusing : Env :=
  { example_env with driver := example_refusing_memory }

/-- The fresh example network with the drivers at addresses 1 and 2
registered. -/
def example_world_two_drivers : World :=
  { example_world with driver_list := [1, 2] }

/-- A caller whose modify-privilege check fails, with its arguments. -/
def example_msg_no_modify (name : String) (value : dbus_value) : DBusMessage :=
  { privilege := fun p =>
      match p with
      | connman_security_privilege.PUBLIC => 0
      | _ => -1
    args := some (name, value) }

/-- A caller with modify privilege whose secret-privilege check fails, with its
arguments. -/
def example_msg_modify_only (name : String) (value : dbus_value) : DBusMessage :=
  { privilege := fun p =>
      match p with
      | connman_security_privilege.SECRET => -1
      | _ => 0
    args := some (name, value) }

/-- The value a file of the store holds for a group and key, `none` when the
file is missing or does not parse. -/
def stored_record (files : String → Option file_contents) (pathname group key : String) :
    Option String :=
  match files pathname with
  | some (file_contents.key_file keyfile _) => keyfile.value group key
  | _ => none

/-- The lines of a file of the store that parsing with flags 0 does not keep,
none when the file is missing or does not parse. -/
def stored_unkept (files : String → Option file_contents) (pathname : String) : List String :=
  match files pathname with
  | some (file_contents.key_file _ unkept) => unkept
  | _ => []

/-- A key file with a record of another network and, in the record `net0`, a
key the network code does not know. -/
def example_keyfile_other : GKeyFile :=
  { value := fun group key =>
      if group = "net1" ∧ key = "WiFi.Passphrase" then some "other"
      else if group = "net0" ∧ key = "Favorite" then some "yes"
      else none
    has_group := true }

/-- A store in which the file of device `wlan0` holds
`example_keyfile_other`, a comment and a German translation. -/
def example_files_other : String → Option file_contents := fun pathname =>
  if pathname = "/var/lib/connman/wlan0.conf" then
    some (file_contents.key_file example_keyfile_other ["# home", "Name[de]=Zuhause"])
  else none

/-- The remembered example network over the store `example_files_other`. -/
def example_remembered_other : World :=
  { example_remembered with files := example_files_other }

/-- The example environment with a driver whose disconnect callback fails
with `-EIO`. -/
def example_env_failing_disconnect : Env :=
  { example_env with driver := fun _ =>
      { example_driver_full with disconnect := some (fun _ => - EIO) } }

/-! ## Views of the network used by the accessor properties -/

/-- The five keys `connman_network_set_string` recognises. -/
def string_keys : List String :=
  ["Name", "Node", "WiFi.Mode", "WiFi.Security", "WiFi.Passphrase"]

/-- The network with its five string attributes blanked: two networks agree on
every other field exactly when these views are equal. -/
def without_strings (network : connman_network) : connman_network :=
  { network with
    name := none
    node := none
    wifi := { network.wifi with mode := none, security := none, passphrase := none } }

/-- A freshly created wimax network with a wifi mode, a wifi security and an
SSID stored through the accessors. -/
def example_wimax : connman_network :=
  (connman_network_set_blob example_env
    (connman_network_set_string
      (connman_network_set_string
        (connman_network_create "wimax0" connman_network_type.WIMAX (-1))
        "WiFi.Mode" (some "managed")).1
      "WiFi.Security" (some "wpa")).1
    "WiFi.SSID" [104, 111, 109, 101] 4).1

/-- The world holding the wimax example network. -/
def example_wimax_world : World :=
  { example_world with network := example_wimax }

/-! ## Blob operations as a step function -/

/-- One call of `connman_network_set_blob` together with the outcome of its
allocation. -/
structure blob_op where
  g_try_malloc : Bool
  key : String
  data : List Nat
  size : Nat
deriving DecidableEq, Repr

/-- Run one call of `connman_network_set_blob`. -/
def blob_op.step (env : Env) (network : connman_network) (op : blob_op) : connman_network :=
  (connman_network_set_blob { env with g_try_malloc := op.g_try_malloc } network
    op.key op.data op.size).1

/-- Run a sequence of calls of `connman_network_set_blob`, first to last. -/
def blob_op.run (env : Env) : List blob_op → connman_network → connman_network
  | [], network => network
  | op :: ops, network => blob_op.run env ops (blob_op.step env network op)

/-- Length of the stored SSID blob, 0 when no blob is stored. -/
def ssid_length (network : connman_network) : Nat :=
  match network.wifi.ssid with
  | some ssid => ssid.length
  | none => 0

/-- The byte sequence a result of `connman_network_get_blob` stands for: the
first `n` bytes behind the returned pointer, nothing for a NULL pointer. -/
def blob_bytes : Option (List Nat) × Option Nat → List Nat
  | (some blob, some n) => blob.take n
  | _ => []

/-- A blob of 2147483648 zero bytes. -/
def example_big_blob : List Nat := List.replicate 2147483648 0

/-- Calls of `connman_network_set_blob` of the examples: a blob, a failed
allocation, another key, an empty blob and a blob again. -/
def example_blob_ops : List blob_op :=
  [{ g_try_malloc := true, key := "WiFi.SSID", data := [104, 111, 109, 101], size := 4 },
   { g_try_malloc := false, key := "WiFi.SSID", data := [1], size := 1 },
   { g_try_malloc := true, key := "WiFi.Mode", data := [1, 2], size := 2 },
   { g_try_malloc := true, key := "WiFi.SSID", data := [], size := 0 },
   { g_try_malloc := true, key := "WiFi.SSID", data := [110, 101, 116], size := 3 }]

/-! ## Inputs for the store examples -/

/-- A remembered, unconnected network with a passphrase, over an empty
store. -/
def example_kept : World :=
  { example_world with
    network := { example_network with
      remember := true
      wifi := { example_network.wifi with passphrase := some "hunter2" } } }

/-- The network of `example_kept` after it was saved and the user then unset
`Remember` over the bus. -/
def example_forgotten : World :=
  (set_property (network_save example_env example_kept).1
    (example_set_property "Remember" (dbus_value.boolean false))).1

/-- The example environment when reading an existing file fails. -/
def example_env_read_fails : Env :=
  { example_env with g_file_get_contents := false }

/-! # Theorems -/

/-! ## Helper lemmas on the call log -/

theorem device_connections_append (device : Option Nat) (l₁ l₂ : List call) :
    device_connections device (l₁ ++ l₂)
      = device_connections device l₁ + device_connections device l₂ := by
  induction l₁ with
  | nil => simp [device_connections]
  | cons c rest ih =>
    cases c <;> simp [device_connections, ih] <;> omega

theorem device_network_append (device : Option Nat) (l₁ l₂ : List call) :
    ∀ start : Option String,
      device_network device start (l₁ ++ l₂)
        = device_network device (device_network device start l₁) l₂ := by
  induction l₁ with
  | nil => intro start; simp [device_network]
  | cons c rest ih =>
    intro start
    cases c <;> simp [device_network, ih]

/-! ## C8: setting the current value -/

/-- C8: `connman_network_set_available`, `connman_network_set_connected` and
`connman_network_set_remember` called with the current value of their field
return `-EALREADY` and hand back the world as it was: no call is added to the
log (no signal, nothing on the device or the element tree) and no field of the
network changes. -/
theorem set_current_value_already (env : Env) (w : World) :
    connman_network_set_available env w w.network.available = (w, -EALREADY) ∧
    connman_network_set_connected env w w.network.connected = (w, -EALREADY) ∧
    connman_network_set_remember env w w.network.remember = (w, -EALREADY) := by
  simp [connman_network_set_available, connman_network_set_connected,
    connman_network_set_remember]

/-! ## C1: device accounting of `connman_network_set_connected` -/

/-- C1, as stated, fails: on the freshly created (unregistered) network
`connman_network_set_connected (true)` returns 0 while no call reaches the
device, so the connection count is not one greater and the current-network
reference is not this network. -/
theorem set_connected_unregistered_no_credit :
    example_world.network.connected = false ∧
    (connman_network_set_connected example_env example_world true).2 = 0 ∧
    device_connections example_world.network.device
        (connman_network_set_connected example_env example_world true).1.calls
      ≠ device_connections example_world.network.device example_world.calls + 1 ∧
    device_network example_world.network.device none
        (connman_network_set_connected example_env example_world true).1.calls
      ≠ some example_world.network.identifier := by
  decide

/-- C1, amended: for a registered, unconnected network with protocol ip or
ppp, when the signal is allocated, `connman_network_set_connected (true)`
returns 0, the device's connection count is one greater than before and its
current-network reference is this network; and for a registered, connected
network, when the signal is allocated, `connman_network_set_connected (false)`
returns 0, the count is one less than before and the reference is cleared. -/
theorem set_connected_device_accounting (env env₂ : Env) (w w₂ : World)
    (start : Option String)
    (hc : w.network.connected = false) (hr : w.network.registered = true)
    (hp : w.network.protocol ≠ connman_network_protocol.UNKNOWN)
    (hs : env.dbus_message_new_signal = true)
    (hc₂ : w₂.network.connected = true) (hr₂ : w₂.network.registered = true)
    (hs₂ : env₂.dbus_message_new_signal = true) :
    ((connman_network_set_connected env w true).2 = 0 ∧
     (connman_network_set_connected env w true).1.network.connected = true ∧
     device_connections w.network.device (connman_network_set_connected env w true).1.calls
       = device_connections w.network.device w.calls + 1 ∧
     device_network w.network.device start (connman_network_set_connected env w true).1.calls
       = some w.network.identifier) ∧
    ((connman_network_set_connected env₂ w₂ false).2 = 0 ∧
     (connman_network_set_connected env₂ w₂ false).1.network.connected = false ∧
     device_connections w₂.network.device (connman_network_set_connected env₂ w₂ false).1.calls
       = device_connections w₂.network.device w₂.calls - 1 ∧
     device_network w₂.network.device start (connman_network_set_connected env₂ w₂ false).1.calls
       = none) := by
  constructor
  · cases hproto : w.network.protocol with
    | UNKNOWN => exact absurd hproto hp
    | IP =>
      by_cases he : env.connman_element_create = true <;>
      by_cases hreg : env.connman_element_register < 0 <;>
      simp [connman_network_set_connected, hc, hr, hs, hproto, child_type, World.log,
        device_connections_append, device_network_append, device_connections,
        device_network, he, hreg]
    | PPP =>
      by_cases he : env.connman_element_create = true <;>
      by_cases hreg : env.connman_element_register < 0 <;>
      simp [connman_network_set_connected, hc, hr, hs, hproto, child_type, World.log,
        device_connections_append, device_network_append, device_connections,
        device_network, he, hreg]
  · simp [connman_network_set_connected, hc₂, hr₂, hs₂, World.log,
      device_connections_append, device_network_append, device_connections,
      device_network]
    omega

/-- Witness for C1 (amended): the registered example network is connected and
the connected one disconnected. -/
theorem set_connected_device_accounting_witness :
    ((connman_network_set_connected example_env example_registered true).2 = 0 ∧
     (connman_network_set_connected example_env example_registered true).1.network.connected
       = true ∧
     device_connections example_registered.network.device
         (connman_network_set_connected example_env example_registered true).1.calls
       = device_connections example_registered.network.device example_registered.calls + 1 ∧
     device_network example_registered.network.device none
         (connman_network_set_connected example_env example_registered true).1.calls
       = some example_registered.network.identifier) ∧
    ((connman_network_set_connected example_env example_connected false).2 = 0 ∧
     (connman_network_set_connected example_env example_connected false).1.network.connected
       = false ∧
     device_connections example_connected.network.device
         (connman_network_set_connected example_env example_connected false).1.calls
       = device_connections example_connected.network.device example_connected.calls - 1 ∧
     device_network example_connected.network.device none
         (connman_network_set_connected example_env example_connected false).1.calls
       = none) :=
  set_connected_device_accounting example_env example_env example_registered example_connected
    none (by decide) (by decide) (by decide) (by decide) (by decide) (by decide) (by decide)

/-! ## C2: connected networks and their credit on the device -/

/-- One operation on a registered network with protocol ip or ppp, bound to a
driver that has both a connect and a disconnect callback, keeps these facts
and keeps the count of the device in step with `connected`. -/
theorem network_op_step_balance (env : Env) (d : Option Nat) (drv : Nat)
    (fc fd : connman_network → Int)
    (hs : env.dbus_message_new_signal = true)
    (hfc : (env.driver drv).connect = some fc) (hfd : (env.driver drv).disconnect = some fd)
    (op : network_op) (w : World)
    (hr : w.network.registered = true)
    (hp : w.network.protocol ≠ connman_network_protocol.UNKNOWN)
    (hd : w.network.device = d) (hdrv : w.network.driver = some drv) :
    (network_op.step env w op).network.registered = true ∧
    (network_op.step env w op).network.protocol ≠ connman_network_protocol.UNKNOWN ∧
    (network_op.step env w op).network.device = d ∧
    (network_op.step env w op).network.driver = some drv ∧
    device_connections d (network_op.step env w op).calls
        - (if (network_op.step env w op).network.connected = true then 1 else 0)
      = device_connections d w.calls - (if w.network.connected = true then 1 else 0) := by
  subst hd
  have hbc : bound_connect env w.network = some (drv, fc) := by
    simp [bound_connect, hdrv, hfc]
  have hbd : bound_disconnect env w.network = some (drv, fd) := by
    simp [bound_disconnect, hdrv, hfd]
  cases op with
  | set_connected connected =>
    cases hproto : w.network.protocol with
    | UNKNOWN => exact absurd hproto hp
    | IP =>
      cases hconn : w.network.connected <;> cases connected <;>
      by_cases he : env.connman_element_create = true <;>
      by_cases hreg : env.connman_element_register < 0 <;>
      simp [network_op.step, connman_network_set_connected, hconn, hr, hs, hproto, child_type,
        World.log, device_connections_append, device_connections, he, hreg, hdrv] <;>
      omega
    | PPP =>
      cases hconn : w.network.connected <;> cases connected <;>
      by_cases he : env.connman_element_create = true <;>
      by_cases hreg : env.connman_element_register < 0 <;>
      simp [network_op.step, connman_network_set_connected, hconn, hr, hs, hproto, child_type,
        World.log, device_connections_append, device_connections, he, hreg, hdrv] <;>
      omega
  | connect =>
    cases hconn : w.network.connected <;>
    simp [network_op.step, connman_network_connect, hconn, hbc, World.log,
      device_connections_append, device_connections, hr, hp, hdrv]
  | disconnect =>
    cases hconn : w.network.connected <;>
    simp [network_op.step, __connman_network_disconnect, hconn, hbd, World.log,
      device_connections_append, device_connections, hr, hp, hdrv]
  | bus_connect msg =>
    cases hconn : w.network.connected <;>
    by_cases hm : msg.privilege connman_security_privilege.MODIFY < 0 <;>
    by_cases hmode : connman_device_get_mode env w.network.device
      = connman_device_mode.NETWORK_SINGLE <;>
    by_cases herr : fc w.network < 0 ∧ fc w.network ≠ -EINPROGRESS <;>
    simp [network_op.step, do_connect, hconn, hbc, World.log, hm, hmode, herr,
      device_connections_append, device_connections, hr, hp, hdrv]
  | bus_disconnect msg =>
    cases hconn : w.network.connected <;>
    by_cases hm : msg.privilege connman_security_privilege.MODIFY < 0 <;>
    by_cases herr : fd w.network < 0 ∧ fd w.network ≠ -EINPROGRESS <;>
    simp [network_op.step, do_disconnect, hconn, hbd, World.log, hm, herr,
      device_connections_append, device_connections, hr, hp, hdrv]

/-- The balance of `network_op_step_balance` over a sequence of operations. -/
theorem network_op_run_balance (env : Env) (d : Option Nat) (drv : Nat)
    (fc fd : connman_network → Int)
    (hs : env.dbus_message_new_signal = true)
    (hfc : (env.driver drv).connect = some fc) (hfd : (env.driver drv).disconnect = some fd)
    (ops : List network_op) :
    ∀ w : World, w.network.registered = true →
      w.network.protocol ≠ connman_network_protocol.UNKNOWN →
      w.network.device = d → w.network.driver = some drv →
      device_connections d (network_op.run env ops w).calls
          - (if (network_op.run env ops w).network.connected = true then 1 else 0)
        = device_connections d w.calls - (if w.network.connected = true then 1 else 0) := by
  induction ops with
  | nil => intro w _ _ _ _; rfl
  | cons op ops ih =>
    intro w hr hp hd hdrv
    obtain ⟨hr', hp', hd', hdrv', hbal⟩ :=
      network_op_step_balance env d drv fc fd hs hfc hfd op w hr hp hd hdrv
    simp only [network_op.run]
    rw [ih _ hr' hp' hd' hdrv', hbal]

/-- C2, as stated, fails: after `connman_network_set_connected (true)` on the
freshly created network `connected` is true while no connection-count
increment has been made on the device. -/
theorem fresh_connected_without_credit :
    (network_op.run example_env [network_op.set_connected true] example_world).network.connected
      = true ∧
    device_connections example_world.network.device
        (network_op.run example_env [network_op.set_connected true] example_world).calls
      - device_connections example_world.network.device example_world.calls ≠ 1 := by
  decide

/-- C2, amended: start from a registered, unconnected network with protocol ip
or ppp that is bound to a driver with a connect and a disconnect callback, and
let signals be allocated. In every state reached by a sequence of
`connman_network_set_connected`, `connman_network_connect`,
`__connman_network_disconnect` and the bus Connect and Disconnect handlers, the
increments made on the device minus the decrements made since the start are 1
when `connected` is true and 0 when it is false. -/
theorem connected_holds_one_credit (env : Env) (w₀ : World) (drv : Nat)
    (fc fd : connman_network → Int) (ops : List network_op)
    (hs : env.dbus_message_new_signal = true)
    (hr : w₀.network.registered = true) (hc : w₀.network.connected = false)
    (hp : w₀.network.protocol ≠ connman_network_protocol.UNKNOWN)
    (hdrv : w₀.network.driver = some drv)
    (hfc : (env.driver drv).connect = some fc) (hfd : (env.driver drv).disconnect = some fd) :
    ((network_op.run env ops w₀).network.connected = true →
      device_connections w₀.network.device (network_op.run env ops w₀).calls
        - device_connections w₀.network.device w₀.calls = 1) ∧
    ((network_op.run env ops w₀).network.connected = false →
      device_connections w₀.network.device (network_op.run env ops w₀).calls
        - device_connections w₀.network.device w₀.calls = 0) := by
  have h := network_op_run_balance env w₀.network.device drv fc fd hs hfc hfd ops w₀ hr hp rfl hdrv
  rw [hc] at h
  constructor
  · intro hconn
    rw [hconn] at h
    simp at h
    omega
  · intro hconn
    rw [hconn] at h
    simp at h
    omega

/-- Witness for C2 (amended): the registered example network under the example
sequence of operations. -/
theorem connected_holds_one_credit_witness :
    ((network_op.run example_env_full example_ops example_registered).network.connected = true →
      device_connections example_registered.network.device
          (network_op.run example_env_full example_ops example_registered).calls
        - device_connections example_registered.network.device example_registered.calls = 1) ∧
    ((network_op.run example_env_full example_ops example_registered).network.connected = false →
      device_connections example_registered.network.device
          (network_op.run example_env_full example_ops example_registered).calls
        - device_connections example_registered.network.device example_registered.calls = 0) :=
  connected_holds_one_credit example_env_full example_registered 7 (fun _ => -EINPROGRESS)
    (fun _ => 0) example_ops (by decide) (by decide) (by decide) (by decide) (by decide)
    rfl rfl

/-! ## C3: the passphrase in `GetProperties` -/

/-- C3: for a caller that passes the public-privilege check and does not pass
the secret-privilege check, the `GetProperties` reply (when it is allocated) is
a property dictionary without an entry named `WiFi.Passphrase`, and the whole
reply is the same whatever passphrase the network stores, set or not. -/
theorem get_properties_hides_passphrase (env : Env) (w : World) (msg : DBusMessage)
    (p q : Option String)
    (hpub : ¬ msg.privilege connman_security_privilege.PUBLIC < 0)
    (hsec : msg.privilege connman_security_privilege.SECRET ≠ 0)
    (halloc : env.dbus_message_new_method_return = true) :
    (∃ dict, get_properties env { w with network := { w.network with
        wifi := { w.network.wifi with passphrase := p } } } msg = DBusReply.properties dict) ∧
    (∀ e ∈ (get_properties env { w with network := { w.network with
        wifi := { w.network.wifi with passphrase := p } } } msg).entries,
      e.1 ≠ "WiFi.Passphrase") ∧
    get_properties env { w with network := { w.network with
        wifi := { w.network.wifi with passphrase := p } } } msg
      = get_properties env { w with network := { w.network with
        wifi := { w.network.wifi with passphrase := q } } } msg := by
  refine ⟨?_, ?_, ?_⟩
  · simp [get_properties, hpub, halloc]
  · intro e he
    simp only [get_properties, hpub, halloc, Bool.true_eq_false, if_false, DBusReply.entries,
      dict_entry_if, hsec, List.mem_append] at he
    rcases he with ((((((((((he | he) | he) | he) | he) | he) | he) | he) | he) | he) | he)
    · split at he
      · split at he <;> simp at he
        simp [he]
      · simp at he
    · split at he <;> simp at he
      simp [he]
    · simp at he; simp [he]
    · simp at he; simp [he]
    · simp at he; simp [he]
    · split_ifs at he <;> simp at he
      simp [he]
    · split_ifs at he <;> simp at he
      simp [he]
    · split at he
      · split_ifs at he <;> simp at he
        simp [he]
      · simp at he
    · split at he <;> simp at he
      simp [he]
    · split at he <;> simp at he
      simp [he]
    · cases p <;> simp at he
  · cases p <;> cases q <;> simp [get_properties, dict_entry_if, hsec]

/-- Witness for C3: the example network read by a caller without secret
privilege, with a passphrase set and with none. -/
theorem get_properties_hides_passphrase_witness :
    (∃ dict, get_properties example_env { example_secret_world with
        network := { example_secret_world.network with
          wifi := { example_secret_world.network.wifi with passphrase := some "hunter2" } } }
        example_msg_no_secret = DBusReply.properties dict) ∧
    (∀ e ∈ (get_properties example_env { example_secret_world with
        network := { example_secret_world.network with
          wifi := { example_secret_world.network.wifi with passphrase := some "hunter2" } } }
        example_msg_no_secret).entries,
      e.1 ≠ "WiFi.Passphrase") ∧
    get_properties example_env { example_secret_world with
        network := { example_secret_world.network with
          wifi := { example_secret_world.network.wifi with passphrase := some "hunter2" } } }
        example_msg_no_secret
      = get_properties example_env { example_secret_world with
        network := { example_secret_world.network with
          wifi := { example_secret_world.network.wifi with passphrase := none } } }
        example_msg_no_secret :=
  get_properties_hides_passphrase example_env example_secret_world example_msg_no_secret
    (some "hunter2") none (by decide) (by decide) rfl

/-! ## C6 and C7: `SetProperty` -/

/-- A recognised name with a value of the wrong wire type is answered with the
invalid-arguments error; the world is handed back as it was. -/
theorem set_property_wrong_type (w : World) (msg : DBusMessage) (value : dbus_value)
    (hm : ¬ msg.privilege connman_security_privilege.MODIFY < 0) :
    ((∀ b, value ≠ dbus_value.boolean b) → msg.args = some ("Remember", value) →
      set_property w msg = (w, DBusReply.invalid_arguments)) ∧
    ((∀ s, value ≠ dbus_value.string s) → msg.args = some ("WiFi.Passphrase", value) →
      set_property w msg = (w, DBusReply.invalid_arguments)) ∧
    ((∀ n, value ≠ dbus_value.byte n) → msg.args = some ("Priority", value) →
      set_property w msg = (w, DBusReply.invalid_arguments)) := by
  refine ⟨?_, ?_, ?_⟩ <;> intro hv ha <;> cases value <;>
    simp_all [set_property]

/-- C6 (evaluation at the failing input): `SetProperty ("Foo", true)` from a
caller holding modify privilege is answered with an empty success reply, not
with the invalid-arguments error, and the storage layer is asked to save the
network; the fields of the network are unchanged. -/
theorem set_property_unknown_name_accepted :
    (set_property example_registered
        (example_set_property "Foo" (dbus_value.boolean true))).2 = DBusReply.reply ∧
    (set_property example_registered
        (example_set_property "Foo" (dbus_value.boolean true))).1.calls
      = [call.storage_save_network] ∧
    (set_property example_registered
        (example_set_property "Foo" (dbus_value.boolean true))).1.network
      = example_registered.network := by
  decide

/-- C7, as stated, fails: on the example network with `remember = false` the
first `SetProperty ("Remember", true)` succeeds and the second one is answered
with the invalid-arguments error, which is neither an "already" condition nor
the generic failure that stands for one on the bus. -/
theorem set_property_remember_twice_invalid_arguments :
    example_registered.network.remember = false ∧
    (set_property example_registered
        (example_set_property "Remember" (dbus_value.boolean true))).2 = DBusReply.reply ∧
    (set_property
        (set_property example_registered
          (example_set_property "Remember" (dbus_value.boolean true))).1
        (example_set_property "Remember" (dbus_value.boolean true))).2
      = DBusReply.invalid_arguments ∧
    (set_property
        (set_property example_registered
          (example_set_property "Remember" (dbus_value.boolean true))).1
        (example_set_property "Remember" (dbus_value.boolean true))).2
      ≠ DBusReply.failed := by
  decide

/-- C7, amended: for a network with `remember = false` and a caller holding
modify privilege, `SetProperty ("Remember", true)` succeeds, sets `remember`
and asks the storage layer to save; the same call repeated is answered with the
invalid-arguments error and leaves the world as it is. In general
`SetProperty ("Remember", v)` with `v` the current value is answered with the
invalid-arguments error and changes nothing. -/
theorem set_property_remember (w : World) (msg : DBusMessage)
    (hm : ¬ msg.privilege connman_security_privilege.MODIFY < 0)
    (hr : w.network.remember = false)
    (ha : msg.args = some ("Remember", dbus_value.boolean true)) :
    (set_property w msg).2 = DBusReply.reply ∧
    (set_property w msg).1.network = { w.network with remember := true } ∧
    (set_property w msg).1.calls = w.calls ++ [call.storage_save_network] ∧
    set_property (set_property w msg).1 msg
      = ((set_property w msg).1, DBusReply.invalid_arguments) ∧
    (∀ (w' : World) (msg' : DBusMessage),
      ¬ msg'.privilege connman_security_privilege.MODIFY < 0 →
      msg'.args = some ("Remember", dbus_value.boolean w'.network.remember) →
      set_property w' msg' = (w', DBusReply.invalid_arguments)) := by
  refine ⟨?_, ?_, ?_, ?_, ?_⟩
  · simp [set_property, ha, hm, hr, set_property_save]
  · simp [set_property, ha, hm, hr, set_property_save, World.log]
  · simp [set_property, ha, hm, hr, set_property_save, World.log]
  · simp [set_property, ha, hm, hr, set_property_save, World.log]
  · intro w' msg' hm' ha'
    simp [set_property, ha', hm']

/-- Witness for C7 (amended): the example network and a fully privileged
caller. -/
theorem set_property_remember_witness :
    (set_property example_registered
        (example_set_property "Remember" (dbus_value.boolean true))).2 = DBusReply.reply ∧
    (set_property example_registered
        (example_set_property "Remember" (dbus_value.boolean true))).1.network
      = { example_registered.network with remember := true } ∧
    (set_property example_registered
        (example_set_property "Remember" (dbus_value.boolean true))).1.calls
      = example_registered.calls ++ [call.storage_save_network] ∧
    set_property (set_property example_registered
        (example_set_property "Remember" (dbus_value.boolean true))).1
        (example_set_property "Remember" (dbus_value.boolean true))
      = ((set_property example_registered
          (example_set_property "Remember" (dbus_value.boolean true))).1,
        DBusReply.invalid_arguments) ∧
    (∀ (w' : World) (msg' : DBusMessage),
      ¬ msg'.privilege connman_security_privilege.MODIFY < 0 →
      msg'.args = some ("Remember", dbus_value.boolean w'.network.remember) →
      set_property w' msg' = (w', DBusReply.invalid_arguments)) :=
  set_property_remember example_registered
    (example_set_property "Remember" (dbus_value.boolean true)) (by decide) (by decide) rfl

/-! ## C9 and C10: the driver registry -/

theorem int_wrap_of_fits (x : Int) (h₁ : -2147483648 ≤ x) (h₂ : x < 2147483648) :
    int_wrap x = x := by
  unfold int_wrap
  omega

/-- With a representable difference `compare_priority` is positive exactly
when the driver already in the list has the greater priority. -/
theorem compare_priority_pos_iff (env : Env) (a b : Nat)
    (h : priority_difference_fits env a b) :
    compare_priority env a b > 0 ↔ (env.driver a).priority < (env.driver b).priority := by
  unfold compare_priority
  rw [int_wrap_of_fits _ h.1 h.2]
  omega

/-- `g_slist_insert_sorted` splits the list at the first element for which the
comparison is not positive. -/
theorem g_slist_insert_sorted_eq (func : Nat → Nat → Int) (data : Nat) (list : List Nat) :
    g_slist_insert_sorted list data func
      = list.takeWhile (fun x => decide (func data x > 0))
        ++ data :: list.dropWhile (fun x => decide (func data x > 0)) := by
  induction list with
  | nil => simp [g_slist_insert_sorted]
  | cons x rest ih =>
    by_cases h : func data x > 0
    · simp [g_slist_insert_sorted, h, ih, List.takeWhile, List.dropWhile]
    · simp [g_slist_insert_sorted, h, List.takeWhile, List.dropWhile]

theorem g_slist_insert_sorted_mem (func : Nat → Nat → Int) (data x : Nat) (list : List Nat) :
    x ∈ g_slist_insert_sorted list data func ↔ x = data ∨ x ∈ list := by
  induction list with
  | nil => simp [g_slist_insert_sorted]
  | cons y rest ih =>
    by_cases h : func data y > 0
    · simp [g_slist_insert_sorted, h, ih]
      tauto
    · simp [g_slist_insert_sorted, h]

/-- `g_slist_remove` is `List.erase`: the first occurrence goes, the rest
stays in place. -/
theorem g_slist_remove_eq_erase (data : Nat) (list : List Nat) :
    g_slist_remove list data = list.erase data := by
  induction list with
  | nil => simp [g_slist_remove]
  | cons x rest ih =>
    by_cases h : x = data
    · simp [g_slist_remove, h]
    · simp [g_slist_remove, h, ih, List.erase_cons_tail]

/-- Inserting into a list ordered by non-increasing priority keeps it ordered,
when the differences with the new driver are representable. -/
theorem g_slist_insert_sorted_pairwise (env : Env) (data : Nat) (list : List Nat)
    (hfit : ∀ x ∈ list, priority_difference_fits env data x)
    (hs : list.Pairwise (fun a b => (env.driver b).priority ≤ (env.driver a).priority)) :
    (g_slist_insert_sorted list data (compare_priority env)).Pairwise
      (fun a b => (env.driver b).priority ≤ (env.driver a).priority) := by
  induction list with
  | nil => simp [g_slist_insert_sorted]
  | cons x rest ih =>
    have hx := compare_priority_pos_iff env data x (hfit x (List.mem_cons_self x rest))
    rw [List.pairwise_cons] at hs
    by_cases h : compare_priority env data x > 0
    · simp only [g_slist_insert_sorted, h, if_true]
      rw [List.pairwise_cons]
      refine ⟨?_, ih (fun y hy => hfit y (List.mem_cons_of_mem x hy)) hs.2⟩
      intro y hy
      rw [g_slist_insert_sorted_mem] at hy
      rcases hy with hy | hy
      · subst hy
        exact le_of_lt (hx.mp h)
      · exact hs.1 y hy
    · simp only [g_slist_insert_sorted, h, if_false]
      have hle : (env.driver x).priority ≤ (env.driver data).priority := by
        by_contra hc
        exact h (hx.mpr (lt_of_not_le hc))
      rw [List.pairwise_cons]
      refine ⟨?_, List.pairwise_cons.mpr hs⟩
      intro y hy
      rcases List.mem_cons.mp hy with hy | hy
      · subst hy
        exact hle
      · exact le_trans (hs.1 y hy) hle

/-- Invariant of the registry under a sequence of operations: the list stays
ordered and holds only drivers out of a set with representable differences. -/
theorem driver_op_run_pairwise (env : Env) (S : Nat → Prop)
    (hS : ∀ a b, S a → S b → priority_difference_fits env a b) (ops : List driver_op) :
    ∀ w : World, (∀ d, driver_op.register d ∈ ops → S d) →
      (∀ x ∈ w.driver_list, S x) →
      w.driver_list.Pairwise (fun a b => (env.driver b).priority ≤ (env.driver a).priority) →
      (driver_op.run env ops w).driver_list.Pairwise
        (fun a b => (env.driver b).priority ≤ (env.driver a).priority) := by
  induction ops with
  | nil => intro w _ _ hs; exact hs
  | cons op ops ih =>
    intro w hreg hmem hs
    simp only [driver_op.run]
    apply ih
    · intro d hd
      exact hreg d (List.mem_cons_of_mem op hd)
    · cases op with
      | register d =>
        intro x hx
        simp only [driver_op.step, connman_network_driver_register] at hx
        rw [g_slist_insert_sorted_mem] at hx
        rcases hx with hx | hx
        · subst hx
          exact hreg x (List.mem_cons_self _ ops)
        · exact hmem x hx
      | unregister d =>
        intro x hx
        simp only [driver_op.step, connman_network_driver_unregister,
          g_slist_remove_eq_erase] at hx
        exact hmem x (List.mem_of_mem_erase hx)
    · cases op with
      | register d =>
        simp only [driver_op.step, connman_network_driver_register]
        apply g_slist_insert_sorted_pairwise env d w.driver_list _ hs
        intro x hx
        exact hS d x (hreg d (List.mem_cons_self _ ops)) (hmem x hx)
      | unregister d =>
        simp only [driver_op.step, connman_network_driver_unregister, g_slist_remove_eq_erase]
        exact hs.sublist (List.erase_sublist d w.driver_list)

/-- With representable differences `g_slist_insert_sorted` under
`compare_priority` puts the new driver behind the drivers of greater priority
and in front of the first driver whose priority is not greater than its own. -/
theorem g_slist_insert_sorted_priority (env : Env) (data : Nat) (list : List Nat)
    (hfit : ∀ x ∈ list, priority_difference_fits env data x) :
    g_slist_insert_sorted list data (compare_priority env)
      = list.takeWhile (fun x => decide ((env.driver data).priority < (env.driver x).priority))
        ++ data :: list.dropWhile
          (fun x => decide ((env.driver data).priority < (env.driver x).priority)) := by
  induction list with
  | nil => simp [g_slist_insert_sorted]
  | cons x rest ih =>
    have hx := compare_priority_pos_iff env data x (hfit x (List.mem_cons_self x rest))
    have ih' := ih (fun y hy => hfit y (List.mem_cons_of_mem x hy))
    by_cases h : compare_priority env data x > 0
    · have h' := hx.mp h
      simp [g_slist_insert_sorted, h, ih', List.takeWhile, List.dropWhile, h']
    · have h' : ¬ (env.driver data).priority < (env.driver x).priority := fun hc => h (hx.mpr hc)
      simp [g_slist_insert_sorted, h, List.takeWhile, List.dropWhile, h']

/-- C10, as stated, fails: two drivers of equal priority 0 registered in the
order 1, 2 stand in the list in the order 2, 1; ties do not keep insertion
order. -/
theorem driver_register_ties_reversed :
    (example_env_registry.driver 1).priority = (example_env_registry.driver 2).priority ∧
    (driver_op.run example_env_registry [driver_op.register 1, driver_op.register 2]
        example_world).driver_list = [2, 1] ∧
    (driver_op.run example_env_registry [driver_op.register 1, driver_op.register 2]
        example_world).driver_list ≠ [1, 2] := by
  decide

/-- C10, amended: when the priority differences of the registered drivers are
representable in `int`, the driver list after any sequence of
`connman_network_driver_register` and `connman_network_driver_unregister`
calls is ordered by non-increasing priority; a registration puts the driver
behind the drivers of greater priority and in front of all drivers of equal or
lower priority (so drivers of equal priority stand in reverse order of
registration); an unregistration erases the first occurrence of the given
driver pointer and keeps the order of the others. -/
theorem driver_list_order (env : Env) (ops : List driver_op) (w₀ : World)
    (h₀ : w₀.driver_list = [])
    (hfit : ∀ a b, driver_op.register a ∈ ops → driver_op.register b ∈ ops →
      priority_difference_fits env a b) :
    (driver_op.run env ops w₀).driver_list.Pairwise
      (fun a b => (env.driver b).priority ≤ (env.driver a).priority) ∧
    (∀ (w : World) (d : Nat), (∀ x ∈ w.driver_list, priority_difference_fits env d x) →
      (connman_network_driver_register env w d).1.driver_list
        = w.driver_list.takeWhile
            (fun x => decide ((env.driver d).priority < (env.driver x).priority))
          ++ d :: w.driver_list.dropWhile
            (fun x => decide ((env.driver d).priority < (env.driver x).priority))) ∧
    (∀ (w : World) (d : Nat),
      (connman_network_driver_unregister w d).driver_list = w.driver_list.erase d) := by
  refine ⟨?_, ?_, ?_⟩
  · apply driver_op_run_pairwise env (fun d => driver_op.register d ∈ ops) hfit ops w₀
    · intro d hd; exact hd
    · intro x hx; rw [h₀] at hx; cases hx
    · rw [h₀]; exact List.Pairwise.nil
  · intro w d hd
    exact g_slist_insert_sorted_priority env d w.driver_list hd
  · intro w d
    simp [connman_network_driver_unregister, g_slist_remove_eq_erase]

/-- Witness for C10 (amended): three registrations with priorities 0, -100, 0
and one removal. -/
theorem driver_list_order_witness :
    (driver_op.run example_env_registry example_driver_ops example_world).driver_list.Pairwise
      (fun a b => (example_env_registry.driver b).priority
        ≤ (example_env_registry.driver a).priority) ∧
    (∀ (w : World) (d : Nat),
      (∀ x ∈ w.driver_list, priority_difference_fits example_env_registry d x) →
      (connman_network_driver_register example_env_registry w d).1.driver_list
        = w.driver_list.takeWhile
            (fun x => decide ((example_env_registry.driver d).priority
              < (example_env_registry.driver x).priority))
          ++ d :: w.driver_list.dropWhile
            (fun x => decide ((example_env_registry.driver d).priority
              < (example_env_registry.driver x).priority))) ∧
    (∀ (w : World) (d : Nat),
      (connman_network_driver_unregister w d).driver_list = w.driver_list.erase d) :=
  driver_list_order example_env_registry example_driver_ops example_world rfl (by
    intro a b ha hb
    simp only [example_driver_ops, List.mem_cons, driver_op.register.injEq, List.mem_singleton,
      reduceCtorEq, or_false, List.not_mem_nil] at ha hb
    rcases ha with ha | ha | ha <;> rcases hb with hb | hb | hb <;> subst ha <;> subst hb <;>
      unfold priority_difference_fits <;> decide)

/-- C9 (evaluation at the failing input): a wifi driver of priority `INT_MAX`
at address 3 is registered, then a wifi driver of priority -100 at address 4.
The difference computed by `compare_priority` overflows `int`, the driver of
lower priority ends up first in the list, `network_probe` probes it first and
binds it, and the driver of greater priority is never probed. -/
theorem network_probe_lower_priority_first :
    (example_env_registry.driver 4).priority < (example_env_registry.driver 3).priority ∧
    match_driver example_world.network (example_env_registry.driver 3) = true ∧
    match_driver example_world.network (example_env_registry.driver 4) = true ∧
    (driver_op.run example_env_registry [driver_op.register 3, driver_op.register 4]
        example_world).driver_list = [4, 3] ∧
    (network_probe example_env_registry
        (driver_op.run example_env_registry [driver_op.register 3, driver_op.register 4]
          example_world)).1.calls
      = [call.driver_probe 4, call.dbus_register_interface none, call.send_Networks (some 1)] ∧
    (network_probe example_env_registry
        (driver_op.run example_env_registry [driver_op.register 3, driver_op.register 4]
          example_world)).1.network.driver = some 4 := by
  decide

/-- The probe loop calls `probe` on the matching drivers in list order and
stops at the first that returns 0, which it binds; drivers that do not match
the type of the network are not probed. -/
theorem network_probe_loop_spec (env : Env) (list : List Nat) :
    ∀ w : World,
      (network_probe_loop env list w).calls
        = w.calls ++ (probed_drivers env w.network list).map call.driver_probe ∧
      (network_probe_loop env list w).network
        = (match (list.filter (fun d => match_driver w.network (env.driver d))).find?
              (fun d => decide ((env.driver d).probe w.network = 0)) with
            | some d => { w.network with driver := some d }
            | none => w.network) := by
  induction list with
  | nil => intro w; simp [network_probe_loop, probed_drivers]
  | cons d rest ih =>
    intro w
    by_cases hm : match_driver w.network (env.driver d) = true
    · by_cases hp : (env.driver d).probe w.network = 0
      · simp [network_probe_loop, probed_drivers, hm, hp, World.log, List.filter_cons,
          List.takeWhile, List.dropWhile, List.find?]
      · have h := ih (w.log (call.driver_probe d))
        simp only [World.log] at h
        simp [network_probe_loop, probed_drivers, hm, hp, World.log, List.filter_cons,
          List.takeWhile, List.dropWhile, List.find?, h]
    · have h := ih w
      simp only [Bool.not_eq_true] at hm
      simp [network_probe_loop, probed_drivers, hm, List.filter_cons, h]

/-! ## C4 and C5: save followed by load -/

/-- For a network that is neither remembered nor connected the update of
`network_save` leaves the secrets of every record as they were. -/
theorem network_save_update_secrets (network : connman_network) (keyfile : GKeyFile)
    (group : String) (hr : network.remember = false) (hc : network.connected = false) :
    (network_save_update network keyfile).value group "WiFi.Passphrase"
      = keyfile.value group "WiFi.Passphrase" ∧
    (network_save_update network keyfile).value group "WiFi.Security"
      = keyfile.value group "WiFi.Security" := by
  by_cases hp : network.priority > 0 <;>
    by_cases hg : g_key_file_is_group_name network.identifier = true <;>
    simp [network_save_update, hr, hc, hp, hg, g_key_file_set_boolean, g_key_file_set_integer,
      g_key_file_set_value]

/-- C4 (evaluation at the failing input): the example network is remembered
with the passphrase `hunter2` and saved; the user then unsets `Remember` over
the bus. The network is now neither remembered nor connected and still has its
passphrase. `network_save` returns 0 and the store still holds the passphrase
in the record of the network, and `network_load` into the fresh network of the
same identifier and device yields exactly the saved network's passphrase. -/
theorem forgotten_network_passphrase_reloaded :
    example_forgotten.network.remember = false ∧
    example_forgotten.network.connected = false ∧
    example_forgotten.network.wifi.passphrase = some "hunter2" ∧
    (network_save example_env example_forgotten).2 = 0 ∧
    stored_value example_env (network_save example_env example_forgotten).1 "WiFi.Passphrase"
      = some "hunter2" ∧
    (network_load example_env
        { (network_save example_env example_forgotten).1 with
          network := example_network }).2 = 0 ∧
    (network_load example_env
        { (network_save example_env example_forgotten).1 with
          network := example_network }).1.network.wifi.passphrase
      = example_forgotten.network.wifi.passphrase := by
  decide

/-- C13: on a registered network for which
`connman_network_set_connected (true)` returns 0, with the signal allocated,
the child element created and its registration under the network succeeding,
the calls added are, in this order: the `Connected` signal, the three device
calls, one `connman_element_create` and one `connman_element_register` of a
DHCP element for protocol ip, of a PPP element for protocol ppp, each with the
index of the network and without a release of the child; for protocol unknown
the signal is the only call, so no child element is created. -/
theorem set_connected_child_element (env : Env) (w : World)
    (hr : w.network.registered = true)
    (hret : (connman_network_set_connected env w true).2 = 0)
    (hs : env.dbus_message_new_signal = true)
    (he : env.connman_element_create = true)
    (hreg : ¬ env.connman_element_register < 0) :
    (connman_network_set_connected env w true).1.calls
      = w.calls ++
        call.send_PropertyChanged w.network.element.path "Connected" true ::
        (match w.network.protocol with
          | connman_network_protocol.UNKNOWN => []
          | connman_network_protocol.IP =>
            [call.device_increase_connections w.network.device,
             call.device_set_network w.network.device (some w.network.identifier),
             call.device_set_disconnected w.network.device false,
             call.element_create,
             call.element_register connman_element_type.DHCP w.network.element.index]
          | connman_network_protocol.PPP =>
            [call.device_increase_connections w.network.device,
             call.device_set_network w.network.device (some w.network.identifier),
             call.device_set_disconnected w.network.device false,
             call.element_create,
             call.element_register connman_element_type.PPP w.network.element.index]) := by
  have hc : w.network.connected = false := by
    cases hconn : w.network.connected with
    | false => rfl
    | true =>
      simp [connman_network_set_connected, hconn, EALREADY] at hret
  cases hp : w.network.protocol <;>
    simp [connman_network_set_connected, hc, hr, hs, he, hreg, hp, child_type, World.log]

/-- Witness for C13: the registered example network with protocol ip, ppp and
unknown. -/
theorem set_connected_child_element_witness :
    (connman_network_set_connected example_env example_registered true).1.calls
      = [call.send_PropertyChanged none "Connected" true,
         call.device_increase_connections (some 1),
         call.device_set_network (some 1) (some "net0"),
         call.device_set_disconnected (some 1) false,
         call.element_create,
         call.element_register connman_element_type.DHCP (-1)] ∧
    (connman_network_set_connected example_env example_registered_ppp true).1.calls
      = [call.send_PropertyChanged none "Connected" true,
         call.device_increase_connections (some 1),
         call.device_set_network (some 1) (some "net0"),
         call.device_set_disconnected (some 1) false,
         call.element_create,
         call.element_register connman_element_type.PPP (-1)] ∧
    (connman_network_set_connected example_env example_registered_unknown true).1.calls
      = [call.send_PropertyChanged none "Connected" true] :=
  ⟨set_connected_child_element example_env example_registered (by decide) (by decide)
      (by decide) (by decide) (by decide),
   set_connected_child_element example_env example_registered_ppp (by decide) (by decide)
      (by decide) (by decide) (by decide),
   set_connected_child_element example_env example_registered_unknown (by decide) (by decide)
      (by decide) (by decide) (by decide)⟩

/-! ## C14: connect and disconnect in the wrong state -/

/-- C14: `connman_network_connect` on a connected network returns `-EALREADY`
and `__connman_network_disconnect` on an unconnected network returns
`-ENOTCONN`; both hand back the world as it was, so no driver callback is
invoked and no field of the network changes. -/
theorem connect_disconnect_wrong_state (env : Env) (w₁ w₂ : World)
    (h₁ : w₁.network.connected = true) (h₂ : w₂.network.connected = false) :
    connman_network_connect env w₁ = (w₁, -EALREADY) ∧
    __connman_network_disconnect env w₂ = (w₂, -ENOTCONN) := by
  simp [connman_network_connect, __connman_network_disconnect, h₁, h₂]

/-- Witness for C14: the connected and the unconnected example network, bound
to a driver with both callbacks. -/
theorem connect_disconnect_wrong_state_witness :
    connman_network_connect example_env_full example_connected
      = (example_connected, -EALREADY) ∧
    __connman_network_disconnect example_env_full example_registered
      = (example_registered, -ENOTCONN) :=
  connect_disconnect_wrong_state example_env_full example_connected example_registered
    (by decide) (by decide)

/-! ## C12: transitions without a signal -/

/-- On a registered network, when the signal is allocated, the first call a
setter makes on a change is `PropertyChanged` with the name of the property and
the new value. -/
theorem setters_emit_signal (env : Env) (w : World) (v : Bool)
    (hr : w.network.registered = true) (hs : env.dbus_message_new_signal = true) :
    (w.network.connected ≠ v →
      ((connman_network_set_connected env w v).1.calls.drop w.calls.length).head?
        = some (call.send_PropertyChanged w.network.element.path "Connected" v)) ∧
    (w.network.remember ≠ v →
      (connman_network_set_remember env w v).1.calls
        = w.calls ++ [call.send_PropertyChanged w.network.element.path "Remember" v]) := by
  constructor
  · intro hne
    cases v
    · simp [connman_network_set_connected, hne, hr, hs, World.log]
    · cases hp : w.network.protocol <;>
        by_cases he : env.connman_element_create = true <;>
        by_cases hreg : env.connman_element_register < 0 <;>
        simp [connman_network_set_connected, hne, hr, hs, hp, he, hreg, child_type,
          World.log]
  · intro hne
    simp [connman_network_set_remember, hne, hr, hs, World.log]

/-- C12 (evaluation at the failing input): on the registered example network
`SetProperty ("Remember", true)` changes `remember` from false to true and the
only call made is the request to the storage layer: no `PropertyChanged`
signal. Likewise `connman_network_connect` and the bus `Connect` handler, with
a bound driver that has no connect callback, change `connected` to true without
making any call. -/
theorem remember_and_connected_change_unsignalled :
    example_registered.network.registered = true ∧
    example_registered.network.remember = false ∧
    (set_property example_registered
        (example_set_property "Remember" (dbus_value.boolean true))).1.network.remember
      = true ∧
    (set_property example_registered
        (example_set_property "Remember" (dbus_value.boolean true))).1.calls
      = [call.storage_save_network] ∧
    example_registered.network.connected = false ∧
    (connman_network_connect example_env example_registered).1.network.connected = true ∧
    (connman_network_connect example_env example_registered).1.calls = [] ∧
    (do_connect example_env example_registered example_msg).1.network.connected = true ∧
    (do_connect example_env example_registered example_msg).1.calls = [] := by
  decide

/-! ## C20: the device is asked to disconnect first -/

/-- The bus `Connect` handler, for an unconnected network whose driver has a
connect callback and whose device is in single-network mode, asks the device to
disconnect and then invokes the callback. -/
theorem do_connect_disconnects_device_first (env : Env) (w : World) (msg : DBusMessage)
    (d : Nat) (connect : connman_network → Int)
    (hm : ¬ msg.privilege connman_security_privilege.MODIFY < 0)
    (hc : w.network.connected = false)
    (hb : bound_connect env w.network = some (d, connect))
    (hmode : connman_device_get_mode env w.network.device
      = connman_device_mode.NETWORK_SINGLE) :
    (do_connect env w msg).1.calls
      = w.calls ++ [call.device_disconnect w.network.device, call.driver_connect d] := by
  by_cases herr : connect w.network < 0 ∧ connect w.network ≠ -EINPROGRESS <;>
    simp [do_connect, hm, hc, hb, hmode, herr, World.log]

/-- C20 (evaluation at the failing input): the registered example network is
unconnected, its driver has a connect callback and its device is in
single-network mode. `connman_network_connect` invokes the driver's connect
callback without asking the device to disconnect; the bus `Connect` handler
asks the device first. -/
theorem connect_skips_device_disconnect :
    example_registered.network.connected = false ∧
    (bound_connect example_env_full example_registered.network).isSome = true ∧
    connman_device_get_mode example_env_full example_registered.network.device
      = connman_device_mode.NETWORK_SINGLE ∧
    (connman_network_connect example_env_full example_registered).1.calls
      = [call.driver_connect 7] ∧
    (do_connect example_env_full example_registered example_msg).1.calls
      = [call.device_disconnect (some 1), call.driver_connect 7] := by
  decide

/-! ## C15: release of the driver -/

/-- After a successful `network_probe` the network is bound to the driver that
claimed it and `network_remove` invokes that driver's remove callback once,
behind the unpublishing of the bus object. -/
theorem network_remove_calls (env : Env) (w : World) (d : Nat)
    (remove : connman_network → Unit)
    (hd : w.network.driver = some d) (hrm : (env.driver d).remove = some remove) :
    (network_remove env w).calls
      = (unregister_interface env w).calls ++ [call.driver_remove d] := by
  simp [network_remove, hd, hrm, World.log]

/-- C15 (evaluation at the failing input): the driver at address 7 has a remove
callback and claims the example network. When the bus object is published,
`network_probe` followed by `network_remove` invokes the remove callback once.
When publishing fails, `network_probe` invokes the remove callback, returns
`-EIO` and leaves the network bound to the driver, and `network_remove` invokes
the remove callback a second time. -/
theorem remove_invoked_twice_after_failed_publish :
    (network_probe example_env_full example_world_one_driver).2 = 0 ∧
    (network_remove example_env_full
        (network_probe example_env_full example_world_one_driver).1).calls
      = [call.driver_probe 7, call.dbus_register_interface none, call.send_Networks (some 1),
         call.send_Networks (some 1), call.dbus_unregister_interface none,
         call.driver_remove 7] ∧
    (network_probe example_env_no_bus example_world_one_driver).2 = - EIO ∧
    (network_probe example_env_no_bus example_world_one_driver).1.network.driver = some 7 ∧
    (network_remove example_env_no_bus
        (network_probe example_env_no_bus example_world_one_driver).1).calls
      = [call.driver_probe 7, call.dbus_register_interface none, call.driver_remove 7,
         call.send_Networks (some 1), call.dbus_unregister_interface none,
         call.driver_remove 7] ∧
    (network_remove example_env_no_bus
        (network_probe example_env_no_bus example_world_one_driver).1).calls.count
      (call.driver_remove 7) = 2 := by
  decide

/-! ## C16: no driver claims the network -/

/-- When every matching driver of the list refuses the network, the probe loop
only records the probes of the matching drivers. -/
theorem network_probe_loop_unclaimed (env : Env) (list : List Nat) :
    ∀ w : World,
      (∀ d ∈ list, match_driver w.network (env.driver d) = true →
        (env.driver d).probe w.network ≠ 0) →
      network_probe_loop env list w
        = { w with
            calls := w.calls ++ List.map call.driver_probe
              (list.filter (fun d => match_driver w.network (env.driver d))) } := by
  induction list with
  | nil => intro w _; simp [network_probe_loop]
  | cons d rest ih =>
    intro w h
    have hrest : ∀ x ∈ rest, match_driver w.network (env.driver x) = true →
        (env.driver x).probe w.network ≠ 0 :=
      fun x hx => h x (List.mem_cons_of_mem d hx)
    by_cases hm : match_driver w.network (env.driver d) = true
    · have hp := h d (List.mem_cons_self d rest) hm
      have h' := ih (w.log (call.driver_probe d)) hrest
      simp only [World.log] at h'
      simp [network_probe_loop, hm, hp, World.log, h', List.filter_cons]
    · have h' := ih w hrest
      simp only [Bool.not_eq_true] at hm
      simp [network_probe_loop, hm, h', List.filter_cons]

/-- C16: for a network with no bound driver, when no driver of the registry
both matches the type of the network and returns 0 from `probe` (the empty
registry included), `network_probe` returns `-ENODEV`, leaves every field of
the network as it was (driver unset, and `registered` false when it was), and
the only calls it adds are the probes of the matching drivers: the bus object
is not registered and no `Networks` signal is sent. -/
theorem network_probe_no_driver (env : Env) (w : World)
    (hd : w.network.driver = none)
    (hnone : ∀ d ∈ w.driver_list, match_driver w.network (env.driver d) = true →
      (env.driver d).probe w.network ≠ 0) :
    (network_probe env w).2 = -ENODEV ∧
    (network_probe env w).1.network = w.network ∧
    (network_probe env w).1.network.driver = none ∧
    (w.network.registered = false → (network_probe env w).1.network.registered = false) ∧
    (network_probe env w).1.calls
      = w.calls ++ (w.driver_list.filter
          (fun d => match_driver w.network (env.driver d))).map call.driver_probe ∧
    (∀ path, call.dbus_register_interface path ∉
      (w.driver_list.filter (fun d => match_driver w.network (env.driver d))).map
        call.driver_probe) ∧
    (∀ device, call.send_Networks device ∉
      (w.driver_list.filter (fun d => match_driver w.network (env.driver d))).map
        call.driver_probe) := by
  have hloop := network_probe_loop_unclaimed env w.driver_list w hnone
  refine ⟨?_, ?_, ?_, ?_, ?_, ?_, ?_⟩
  · simp [network_probe, hloop, hd]
  · simp [network_probe, hloop, hd]
  · simp [network_probe, hloop, hd]
  · intro hreg
    simp [network_probe, hloop, hd, hreg]
  · simp [network_probe, hloop, hd]
  · intro path
    simp
  · intro device
    simp

/-- Witness for C16: the example network with a wimax driver and a wifi driver
that refuses it. -/
theorem network_probe_no_driver_witness :
    (network_probe example_env_refusing example_world_two_drivers).2 = -ENODEV ∧
    (network_probe example_env_refusing example_world_two_drivers).1.network
      = example_world_two_drivers.network ∧
    (network_probe example_env_refusing example_world_two_drivers).1.network.driver = none ∧
    (example_world_two_drivers.network.registered = false →
      (network_probe example_env_refusing example_world_two_drivers).1.network.registered
        = false) ∧
    (network_probe example_env_refusing example_world_two_drivers).1.calls
      = example_world_two_drivers.calls ++ (example_world_two_drivers.driver_list.filter
          (fun d => match_driver example_world_two_drivers.network
            (example_env_refusing.driver d))).map call.driver_probe ∧
    (∀ path, call.dbus_register_interface path ∉
      (example_world_two_drivers.driver_list.filter
        (fun d => match_driver example_world_two_drivers.network
          (example_env_refusing.driver d))).map call.driver_probe) ∧
    (∀ device, call.send_Networks device ∉
      (example_world_two_drivers.driver_list.filter
        (fun d => match_driver example_world_two_drivers.network
          (example_env_refusing.driver d))).map call.driver_probe) :=
  network_probe_no_driver example_env_refusing example_world_two_drivers (by decide)
    (by decide)

/-! ## C17: privilege checks of `SetProperty` -/

/-- C17: `SetProperty` from a caller whose modify-privilege check fails is
answered with permission-denied for every property name and value, and
`SetProperty ("WiFi.Passphrase", string)` from a caller that passes the modify
check and fails the secret check is answered with permission-denied; in both
cases the world is handed back as it was: no field of the network changes (the
passphrase included) and the storage layer is not called. -/
theorem set_property_permission_denied (w : World) (msg₁ msg₂ : DBusMessage)
    (name : String) (value : dbus_value) (passphrase : String)
    (hm₁ : msg₁.privilege connman_security_privilege.MODIFY < 0)
    (ha₁ : msg₁.args = some (name, value))
    (hm₂ : ¬ msg₂.privilege connman_security_privilege.MODIFY < 0)
    (hs₂ : msg₂.privilege connman_security_privilege.SECRET < 0)
    (ha₂ : msg₂.args = some ("WiFi.Passphrase", dbus_value.string passphrase)) :
    set_property w msg₁ = (w, DBusReply.permission_denied) ∧
    set_property w msg₂ = (w, DBusReply.permission_denied) := by
  constructor
  · simp [set_property, ha₁, hm₁]
  · simp [set_property, ha₂, hm₂, hs₂]

/-- Witness for C17: a caller without modify privilege sets `Remember` and a
caller without secret privilege sets the passphrase of the example network. -/
theorem set_property_permission_denied_witness :
    set_property example_secret_world
        (example_msg_no_modify "Remember" (dbus_value.boolean true))
      = (example_secret_world, DBusReply.permission_denied) ∧
    set_property example_secret_world
        (example_msg_modify_only "WiFi.Passphrase" (dbus_value.string "guess"))
      = (example_secret_world, DBusReply.permission_denied) :=
  set_property_permission_denied example_secret_world
    (example_msg_no_modify "Remember" (dbus_value.boolean true))
    (example_msg_modify_only "WiFi.Passphrase" (dbus_value.string "guess"))
    "Remember" (dbus_value.boolean true) "guess" (by decide) rfl (by decide) (by decide) rfl

/-! ## C18: what `network_save` leaves alone -/

/-- The update of `network_save` changes no entry outside the four keys of the
network's own record. -/
theorem network_save_update_frame (network : connman_network) (keyfile : GKeyFile)
    (group key : String)
    (h : group ≠ network.identifier ∨
      (key ≠ "Remember" ∧ key ≠ "Priority" ∧ key ≠ "WiFi.Security"
        ∧ key ≠ "WiFi.Passphrase")) :
    (network_save_update network keyfile).value group key = keyfile.value group key := by
  unfold network_save_update
  by_cases hp : network.priority > 0 <;>
    by_cases hk : network.remember = true ∨ network.connected = true <;>
    by_cases hg : g_key_file_is_group_name network.identifier = true <;>
    cases hs : network.wifi.security <;> cases hw : network.wifi.passphrase <;>
    rcases h with h | ⟨h1, h2, h3, h4⟩ <;>
    simp [hp, hk, hg, g_key_file_set_boolean, g_key_file_set_integer, g_key_file_set_string,
      g_key_file_set_value, *]

/-- The update of `network_save` never removes the last group. -/
theorem network_save_update_has_group (network : connman_network) (keyfile : GKeyFile)
    (h : keyfile.has_group = true) :
    (network_save_update network keyfile).has_group = true := by
  unfold network_save_update
  by_cases hp : network.priority > 0 <;>
    by_cases hk : network.remember = true ∨ network.connected = true <;>
    by_cases hg : g_key_file_is_group_name network.identifier = true <;>
    cases hs : network.wifi.security <;> cases hw : network.wifi.passphrase <;>
    simp [hp, hk, hg, h, g_key_file_set_boolean, g_key_file_set_integer,
      g_key_file_set_string, g_key_file_set_value]

/-- When reading the store succeeds, `network_save` keeps every entry the
parser kept outside the four keys of the network's own record, in every file
(a key file without a group holds no entries). -/
theorem network_save_keeps_parsed_entries (env : Env) (w : World)
    (pathname group key : String)
    (hread : env.g_file_get_contents = true)
    (hwf : ∀ keyfile unkept, w.files pathname = some (file_contents.key_file keyfile unkept) →
      keyfile.has_group = false → keyfile.value group key = none)
    (h : group ≠ w.network.identifier ∨
      (key ≠ "Remember" ∧ key ≠ "Priority" ∧ key ≠ "WiFi.Security"
        ∧ key ≠ "WiFi.Passphrase")) :
    stored_record (network_save env w).1.files pathname group key
      = stored_record w.files pathname group key := by
  have hframe := fun keyfile => network_save_update_frame w.network keyfile group key h
  have hnew : g_key_file_new.value group key = none := rfl
  cases hname : connman_device_get_name env w.network.device with
  | none => simp [network_save, hname]
  | some name =>
    by_cases hwrite : env.g_file_set_contents = true
    · by_cases hpath : pathname = storage_pathname env name
      · subst hpath
        cases hfile : w.files (storage_pathname env name) with
        | none =>
          by_cases hh : (network_save_update w.network g_key_file_new).has_group = true <;>
            simp [network_save, hname, hfile, network_save_start, g_file_get_contents, hread,
              g_file_set_contents, hwrite, g_key_file_to_data, hh, stored_record, hframe,
              hnew]
        | some data =>
          cases data with
          | empty =>
            by_cases hh : (network_save_update w.network g_key_file_new).has_group = true <;>
              simp [network_save, hname, hfile, network_save_start, g_file_get_contents, hread,
                g_file_set_contents, hwrite, g_key_file_to_data, hh, stored_record, hframe,
                hnew]
          | malformed =>
            simp [network_save, hname, hfile, network_save_start, g_file_get_contents, hread,
              stored_record]
          | key_file keyfile unkept =>
            by_cases hh : keyfile.has_group = true
            · have hh' := network_save_update_has_group w.network keyfile hh
              simp [network_save, hname, hfile, network_save_start, g_file_get_contents, hread,
                g_file_set_contents, hwrite, g_key_file_to_data, hh', stored_record, hframe]
            · have hnone := hwf keyfile unkept hfile (by simpa using hh)
              by_cases hh' : (network_save_update w.network keyfile).has_group = true <;>
                simp [network_save, hname, hfile, network_save_start, g_file_get_contents,
                  hread, g_file_set_contents, hwrite, g_key_file_to_data, hh', stored_record,
                  hframe, hnone]
      · cases hstart : network_save_start env w.files (storage_pathname env name) with
        | none => simp [network_save, hname, hstart]
        | some keyfile =>
          simp [network_save, hname, hstart, stored_record, g_file_set_contents, hwrite, hpath]
    · cases hstart : network_save_start env w.files (storage_pathname env name) with
      | none => simp [network_save, hname, hstart]
      | some keyfile =>
        simp [network_save, hname, hstart, g_file_set_contents, hwrite]

/-- C18 (evaluation at the failing input): the store of the device holds the
passphrase of another network `net1`, a comment and a translated key. When
`g_file_get_contents` fails on this existing file, `network_save` returns 0
and replaces the store by the record of the saved network alone: the record
of `net1` is gone. When the read succeeds the record of `net1` is kept, but
the comment and the translation, which parsing with flags 0 does not keep, are
gone from the store. -/
theorem network_save_loses_unrelated_content :
    stored_record example_remembered_other.files
        "/var/lib/connman/wlan0.conf" "net1" "WiFi.Passphrase" = some "other" ∧
    (network_save example_env_read_fails example_remembered_other).2 = 0 ∧
    stored_record (network_save example_env_read_fails example_remembered_other).1.files
        "/var/lib/connman/wlan0.conf" "net1" "WiFi.Passphrase" = none ∧
    stored_record (network_save example_env_read_fails example_remembered_other).1.files
        "/var/lib/connman/wlan0.conf" "net0" "Remember" = some "true" ∧
    stored_unkept example_remembered_other.files "/var/lib/connman/wlan0.conf"
      = ["# home", "Name[de]=Zuhause"] ∧
    stored_record (network_save example_env example_remembered_other).1.files
        "/var/lib/connman/wlan0.conf" "net1" "WiFi.Passphrase" = some "other" ∧
    stored_unkept (network_save example_env example_remembered_other).1.files
        "/var/lib/connman/wlan0.conf" = [] := by
  decide

/-! ## C19: replies of the bus `Connect` handler -/

/-- C19: for a caller that passes the modify check, the bus `Connect` handler
replies with the generic failed error exactly when the network is already
connected or the bound driver's connect callback returns a negative result
other than `-EINPROGRESS`, and then leaves the network as it was; in every
other case it replies with an empty success reply; and a result of
`-EINPROGRESS` leaves `connected` false. -/
theorem do_connect_reply (env : Env) (w : World) (msg : DBusMessage)
    (hm : ¬ msg.privilege connman_security_privilege.MODIFY < 0) :
    ((do_connect env w msg).2 = DBusReply.failed ↔
      (w.network.connected = true ∨
        ∃ d connect, bound_connect env w.network = some (d, connect) ∧
          connect w.network < 0 ∧ connect w.network ≠ -EINPROGRESS)) ∧
    ((do_connect env w msg).2 = DBusReply.failed →
      (do_connect env w msg).1.network = w.network) ∧
    ((do_connect env w msg).2 ≠ DBusReply.failed →
      (do_connect env w msg).2 = DBusReply.reply) ∧
    (∀ d connect, w.network.connected = false →
      bound_connect env w.network = some (d, connect) →
      connect w.network = -EINPROGRESS →
      (do_connect env w msg).2 = DBusReply.reply ∧
      (do_connect env w msg).1.network.connected = false) := by
  cases hc : w.network.connected with
  | true => simp [do_connect, hm, hc]
  | false =>
    cases hb : bound_connect env w.network with
    | none => simp [do_connect, hm, hc, hb]
    | some p =>
      obtain ⟨d, connect⟩ := p
      by_cases hmode : connman_device_get_mode env w.network.device
          = connman_device_mode.NETWORK_SINGLE <;>
        by_cases herr : connect w.network < 0 ∧ connect w.network ≠ -EINPROGRESS
      · simp [do_connect, hm, hc, hb, hmode, herr, World.log]
        exact ⟨d, connect, ⟨rfl, rfl⟩, herr.1, herr.2⟩
      · refine ⟨?_, ?_, ?_, ?_⟩
        · simp [do_connect, hm, hc, hb, hmode, herr, World.log]
          intro h1
          by_contra h2
          exact herr ⟨h1, h2⟩
        · simp [do_connect, hm, hc, hb, hmode, herr, World.log]
        · simp [do_connect, hm, hc, hb, hmode, herr, World.log]
        · intro d' connect' _ h' he
          simp [do_connect, hm, hc, hb, hmode, herr, World.log]
      · simp [do_connect, hm, hc, hb, hmode, herr, World.log]
        exact ⟨d, connect, ⟨rfl, rfl⟩, herr.1, herr.2⟩
      · refine ⟨?_, ?_, ?_, ?_⟩
        · simp [do_connect, hm, hc, hb, hmode, herr, World.log]
          intro h1
          by_contra h2
          exact herr ⟨h1, h2⟩
        · simp [do_connect, hm, hc, hb, hmode, herr, World.log]
        · simp [do_connect, hm, hc, hb, hmode, herr, World.log]
        · intro d' connect' _ h' he
          simp [do_connect, hm, hc, hb, hmode, herr, World.log]

/-- Witness for C19: the unconnected example network whose driver's connect
callback reports a connection in progress. -/
theorem do_connect_reply_witness :
    ((do_connect example_env_full example_registered example_msg).2 = DBusReply.failed ↔
      (example_registered.network.connected = true ∨
        ∃ d connect, bound_connect example_env_full example_registered.network
            = some (d, connect) ∧
          connect example_registered.network < 0 ∧
          connect example_registered.network ≠ -EINPROGRESS)) ∧
    ((do_connect example_env_full example_registered example_msg).2 = DBusReply.failed →
      (do_connect example_env_full example_registered example_msg).1.network
        = example_registered.network) ∧
    ((do_connect example_env_full example_registered example_msg).2 ≠ DBusReply.failed →
      (do_connect example_env_full example_registered example_msg).2 = DBusReply.reply) ∧
    (∀ d connect, example_registered.network.connected = false →
      bound_connect example_env_full example_registered.network = some (d, connect) →
      connect example_registered.network = -EINPROGRESS →
      (do_connect example_env_full example_registered example_msg).2 = DBusReply.reply ∧
      (do_connect example_env_full example_registered example_msg).1.network.connected
        = false) :=
  do_connect_reply example_env_full example_registered example_msg (by decide)

/-! ## C23: order of the effects of `connman_network_set_connected` -/

/-- C23: on a registered network, with the signal allocated, the calls of a
`connman_network_set_connected` that changes the value are made in a fixed
order. To true, with protocol ip or ppp and the child created and registered:
the `Connected` signal, the increment of the device's connection count, the
device's current network set to this network, the device marked not
disconnected, then the child element created and registered under the network.
To false: the `Connected` signal, the children of the network unregistered,
the device's current network cleared, the connection count decremented. -/
theorem set_connected_order (env : Env) (w₁ w₂ : World) (type : connman_element_type)
    (hs : env.dbus_message_new_signal = true)
    (hr₁ : w₁.network.registered = true) (hc₁ : w₁.network.connected = false)
    (hp : child_type w₁.network.protocol = some type)
    (he : env.connman_element_create = true)
    (hreg : ¬ env.connman_element_register < 0)
    (hr₂ : w₂.network.registered = true) (hc₂ : w₂.network.connected = true) :
    connman_network_set_connected env w₁ true
      = ({ w₁ with
           network := { w₁.network with connected := true }
           calls := w₁.calls ++
            [call.send_PropertyChanged w₁.network.element.path "Connected" true,
             call.device_increase_connections w₁.network.device,
             call.device_set_network w₁.network.device (some w₁.network.identifier),
             call.device_set_disconnected w₁.network.device false,
             call.element_create,
             call.element_register type w₁.network.element.index] }, 0) ∧
    connman_network_set_connected env w₂ false
      = ({ w₂ with
           network := { w₂.network with connected := false }
           calls := w₂.calls ++
            [call.send_PropertyChanged w₂.network.element.path "Connected" false,
             call.element_unregister_children,
             call.device_set_network w₂.network.device none,
             call.device_decrease_connections w₂.network.device] }, 0) := by
  constructor
  · simp [connman_network_set_connected, hc₁, hr₁, hs, hp, he, hreg, World.log]
  · simp [connman_network_set_connected, hc₂, hr₂, hs, World.log]

/-- Witness for C23: the registered example network (protocol ip) is connected
and the connected one disconnected. -/
theorem set_connected_order_witness :
    connman_network_set_connected example_env example_registered true
      = ({ example_registered with
           network := { example_registered.network with connected := true }
           calls := example_registered.calls ++
            [call.send_PropertyChanged example_registered.network.element.path
               "Connected" true,
             call.device_increase_connections example_registered.network.device,
             call.device_set_network example_registered.network.device
               (some example_registered.network.identifier),
             call.device_set_disconnected example_registered.network.device false,
             call.element_create,
             call.element_register connman_element_type.DHCP
               example_registered.network.element.index] }, 0) ∧
    connman_network_set_connected example_env example_connected false
      = ({ example_connected with
           network := { example_connected.network with connected := false }
           calls := example_connected.calls ++
            [call.send_PropertyChanged example_connected.network.element.path
               "Connected" false,
             call.element_unregister_children,
             call.device_set_network example_connected.network.device none,
             call.device_decrease_connections example_connected.network.device] }, 0) :=
  set_connected_order example_env example_registered example_connected
    connman_element_type.DHCP (by decide) (by decide) (by decide) (by decide) (by decide)
    (by decide) (by decide) (by decide)

/-! ## C24: the bus `Disconnect` handler -/

/-- C24: for a connected network and a caller that passes the modify check,
the bus `Disconnect` handler unregisters the children of the network, marks the
device disconnected and only then invokes the disconnect callback of the bound
driver, when there is one. It replies with the generic failed error exactly
when the callback returns a negative result other than `-EINPROGRESS`, and with
an empty success reply otherwise (in particular for `-EINPROGRESS`); the two
teardown calls are in the log in every case. -/
theorem do_disconnect_order (env : Env) (w : World) (msg : DBusMessage)
    (hm : ¬ msg.privilege connman_security_privilege.MODIFY < 0)
    (hc : w.network.connected = true) :
    (do_disconnect env w msg).1.calls
      = w.calls ++
        [call.element_unregister_children,
         call.device_set_disconnected w.network.device true] ++
        (match bound_disconnect env w.network with
          | some (d, _) => [call.driver_disconnect d]
          | none => []) ∧
    ((do_disconnect env w msg).2 = DBusReply.failed ↔
      ∃ d disconnect, bound_disconnect env w.network = some (d, disconnect) ∧
        disconnect w.network < 0 ∧ disconnect w.network ≠ -EINPROGRESS) ∧
    ((do_disconnect env w msg).2 ≠ DBusReply.failed →
      (do_disconnect env w msg).2 = DBusReply.reply) ∧
    (∀ d disconnect, bound_disconnect env w.network = some (d, disconnect) →
      disconnect w.network = -EINPROGRESS →
      (do_disconnect env w msg).2 = DBusReply.reply) := by
  cases hb : bound_disconnect env w.network with
  | none => simp [do_disconnect, hm, hc, hb, World.log]
  | some p =>
    obtain ⟨d, disconnect⟩ := p
    by_cases herr : disconnect w.network < 0 ∧ disconnect w.network ≠ -EINPROGRESS
    · simp [do_disconnect, hm, hc, hb, herr, World.log]
      exact ⟨d, disconnect, ⟨rfl, rfl⟩, herr.1, herr.2⟩
    · refine ⟨?_, ?_, ?_, ?_⟩
      · simp [do_disconnect, hm, hc, hb, herr, World.log]
      · simp [do_disconnect, hm, hc, hb, herr, World.log]
        intro h1
        by_contra h2
        exact herr ⟨h1, h2⟩
      · simp [do_disconnect, hm, hc, hb, herr, World.log]
      · intro d' disconnect' _ _
        simp [do_disconnect, hm, hc, hb, herr, World.log]

/-- Witness for C24: the connected example network is disconnected over the
bus while the driver's disconnect callback fails with `-EIO`. -/
theorem do_disconnect_order_witness :
    (do_disconnect example_env_failing_disconnect example_connected example_msg).1.calls
      = example_connected.calls ++
        [call.element_unregister_children,
         call.device_set_disconnected example_connected.network.device true] ++
        (match bound_disconnect example_env_failing_disconnect example_connected.network with
          | some (d, _) => [call.driver_disconnect d]
          | none => []) ∧
    ((do_disconnect example_env_failing_disconnect example_connected example_msg).2
        = DBusReply.failed ↔
      ∃ d disconnect, bound_disconnect example_env_failing_disconnect
          example_connected.network = some (d, disconnect) ∧
        disconnect example_connected.network < 0 ∧
        disconnect example_connected.network ≠ -EINPROGRESS) ∧
    ((do_disconnect example_env_failing_disconnect example_connected example_msg).2
        ≠ DBusReply.failed →
      (do_disconnect example_env_failing_disconnect example_connected example_msg).2
        = DBusReply.reply) ∧
    (∀ d disconnect, bound_disconnect example_env_failing_disconnect
        example_connected.network = some (d, disconnect) →
      disconnect example_connected.network = -EINPROGRESS →
      (do_disconnect example_env_failing_disconnect example_connected example_msg).2
        = DBusReply.reply) :=
  do_disconnect_order example_env_failing_disconnect example_connected example_msg
    (by decide) (by decide)

/-! ## C25: balance of the device's connection count -/

/-- For a registered, unconnected network with protocol ip or ppp, with the
signal allocated, `connman_network_set_connected (true)` followed by
`connman_network_set_connected (false)` leaves the device's connection count
as it was. -/
theorem set_connected_pair_balanced (env : Env) (w : World)
    (hr : w.network.registered = true) (hc : w.network.connected = false)
    (hp : w.network.protocol ≠ connman_network_protocol.UNKNOWN)
    (hs : env.dbus_message_new_signal = true) :
    device_connections w.network.device
        (connman_network_set_connected env
          (connman_network_set_connected env w true).1 false).1.calls
      = device_connections w.network.device w.calls := by
  cases hproto : w.network.protocol with
  | UNKNOWN => exact absurd hproto hp
  | IP =>
    by_cases he : env.connman_element_create = true <;>
    by_cases hreg : env.connman_element_register < 0 <;>
    simp [connman_network_set_connected, hc, hr, hs, hproto, child_type, World.log,
      device_connections_append, device_connections, he, hreg]
  | PPP =>
    by_cases he : env.connman_element_create = true <;>
    by_cases hreg : env.connman_element_register < 0 <;>
    simp [connman_network_set_connected, hc, hr, hs, hproto, child_type, World.log,
      device_connections_append, device_connections, he, hreg]

/-- C25 (evaluation at the failing input): the registered, unconnected example
network has protocol unknown. `connman_network_set_connected (true)` returns 0
without a call on the device, the following
`connman_network_set_connected (false)` returns 0 and decrements the device's
connection count: after the pair the count is one less than before. -/
theorem set_connected_pair_unbalanced_unknown :
    example_registered_unknown.network.registered = true ∧
    example_registered_unknown.network.connected = false ∧
    example_registered_unknown.network.protocol = connman_network_protocol.UNKNOWN ∧
    (connman_network_set_connected example_env example_registered_unknown true).2 = 0 ∧
    (connman_network_set_connected example_env example_registered_unknown true).1.calls
      = [call.send_PropertyChanged none "Connected" true] ∧
    (connman_network_set_connected example_env
        (connman_network_set_connected example_env example_registered_unknown true).1
        false).2 = 0 ∧
    (connman_network_set_connected example_env
        (connman_network_set_connected example_env example_registered_unknown true).1
        false).1.calls
      = [call.send_PropertyChanged none "Connected" true,
         call.send_PropertyChanged none "Connected" false,
         call.element_unregister_children,
         call.device_set_network (some 1) none,
         call.device_decrease_connections (some 1)] ∧
    device_connections example_registered_unknown.network.device
        (connman_network_set_connected example_env
          (connman_network_set_connected example_env example_registered_unknown true).1
          false).1.calls
      = device_connections example_registered_unknown.network.device
          example_registered_unknown.calls - 1 := by
  decide

/-! ## C26: string attributes -/

/-- C26: for each of the keys `Name`, `Node`, `WiFi.Mode`, `WiFi.Security`,
`WiFi.Passphrase` and every string `v`, `connman_network_set_string` returns 0,
afterwards `connman_network_get_string` gives `v` for that key and the old
value for the other four keys, and every other field of the network is as
before; for any other key `connman_network_set_string` returns 0 and changes
nothing and `connman_network_get_string` returns NULL. -/
theorem set_get_string (network : connman_network) (v : String) :
    (∀ k ∈ string_keys,
      (connman_network_set_string network k (some v)).2 = 0 ∧
      connman_network_get_string (connman_network_set_string network k (some v)).1 k
        = some v ∧
      (∀ k' ∈ string_keys, k' ≠ k →
        connman_network_get_string (connman_network_set_string network k (some v)).1 k'
          = connman_network_get_string network k') ∧
      without_strings (connman_network_set_string network k (some v)).1
        = without_strings network) ∧
    (∀ k, k ∉ string_keys →
      connman_network_set_string network k (some v) = (network, 0) ∧
      connman_network_get_string network k = none) := by
  constructor
  · intro k hk
    simp only [string_keys, List.mem_cons, List.mem_singleton, List.not_mem_nil, or_false] at hk
    rcases hk with rfl | rfl | rfl | rfl | rfl
    all_goals
      refine ⟨?_, ?_, ?_, ?_⟩
      · simp [connman_network_set_string]
      · simp [connman_network_set_string, connman_network_get_string]
      · intro k' hk' hne
        simp only [string_keys, List.mem_cons, List.mem_singleton, List.not_mem_nil,
          or_false] at hk'
        rcases hk' with rfl | rfl | rfl | rfl | rfl <;>
          first
          | exact absurd rfl hne
          | simp [connman_network_set_string, connman_network_get_string]
      · simp [connman_network_set_string, without_strings]
  · intro k hk
    simp only [string_keys, List.mem_cons, List.mem_singleton, List.not_mem_nil, or_false,
      not_or] at hk
    obtain ⟨h1, h2, h3, h4, h5⟩ := hk
    simp [connman_network_set_string, connman_network_get_string, h1, h2, h3, h4, h5]

/-- Witness for C26: the passphrase of the example network is set, and an
unknown key is tried. -/
theorem set_get_string_witness :
    ((connman_network_set_string example_network "WiFi.Passphrase" (some "hunter2")).2 = 0 ∧
      connman_network_get_string
          (connman_network_set_string example_network "WiFi.Passphrase" (some "hunter2")).1
          "WiFi.Passphrase"
        = some "hunter2" ∧
      (∀ k' ∈ string_keys, k' ≠ "WiFi.Passphrase" →
        connman_network_get_string
            (connman_network_set_string example_network "WiFi.Passphrase" (some "hunter2")).1
            k'
          = connman_network_get_string example_network k') ∧
      without_strings
          (connman_network_set_string example_network "WiFi.Passphrase" (some "hunter2")).1
        = without_strings example_network) ∧
    (connman_network_set_string example_network "WiFi.Channel" (some "hunter2")
        = (example_network, 0) ∧
      connman_network_get_string example_network "WiFi.Channel" = none) :=
  ⟨(set_get_string example_network "hunter2").1 "WiFi.Passphrase" (by decide),
   (set_get_string example_network "hunter2").2 "WiFi.Channel" (by decide)⟩

/-! ## C21: the wifi keys of `GetProperties` -/

/-- The entries of the reply under the three wifi keys: each is there exactly
when its value is set (for the SSID: set with a positive length). -/
theorem get_properties_mem (env : Env) (w : World) (msg : DBusMessage)
    (hpub : ¬ msg.privilege connman_security_privilege.PUBLIC < 0)
    (halloc : env.dbus_message_new_method_return = true) (key : String) (v : dbus_value)
    (hk : key = "WiFi.SSID" ∨ key = "WiFi.Mode" ∨ key = "WiFi.Security") :
    (key, v) ∈ (get_properties env w msg).entries ↔
      ((key = "WiFi.SSID" ∧ ∃ ssid, w.network.wifi.ssid = some ssid ∧
          w.network.wifi.ssid_len > 0 ∧
          v = dbus_value.byte_array (ssid.take w.network.wifi.ssid_len.toNat)) ∨
       (key = "WiFi.Mode" ∧ ∃ mode, w.network.wifi.mode = some mode ∧
          v = dbus_value.string mode) ∨
       (key = "WiFi.Security" ∧ ∃ security, w.network.wifi.security = some security ∧
          v = dbus_value.string security)) := by
  simp only [get_properties, hpub, halloc, Bool.true_eq_false, if_false, DBusReply.entries,
    dict_entry_if, List.mem_append]
  have hdev : (key, v) ∉ (match w.network.device with
      | some d =>
        match connman_device_get_path env (some d) with
        | some path => [("Device", dbus_value.object_path path)]
        | none => []
      | none => []) := by
    split
    · split <;> rcases hk with rfl | rfl | rfl <;> simp
    · simp
  rcases hk with rfl | rfl | rfl <;>
    cases w.network.name <;> cases w.network.wifi.ssid <;> cases w.network.wifi.mode <;>
    cases w.network.wifi.security <;> cases w.network.wifi.passphrase <;>
    simp [hdev]

/-- C21, as stated, fails: a freshly created wimax network on which
`connman_network_set_string` stored a wifi mode and a wifi security and
`connman_network_set_blob` an SSID shows all three keys in its `GetProperties`
reply. -/
theorem get_properties_wimax_shows_wifi_keys :
    example_wimax_world.network.type = connman_network_type.WIMAX ∧
    get_properties example_env example_wimax_world example_msg
      = DBusReply.properties
          [("Available", dbus_value.boolean false),
           ("Connected", dbus_value.boolean false),
           ("Remember", dbus_value.boolean false),
           ("WiFi.SSID", dbus_value.byte_array [104, 111, 109, 101]),
           ("WiFi.Mode", dbus_value.string "managed"),
           ("WiFi.Security", dbus_value.string "wpa")] := by
  decide

/-- C21, amended: for a caller that passes the public check (the reply being
allocated), the `GetProperties` reply has a `WiFi.SSID` entry exactly when an
SSID blob of positive length is stored, a `WiFi.Mode` entry exactly when the
mode is set and a `WiFi.Security` entry exactly when the security is set, each
carrying the stored value; the reply does not depend on the type of the
network. -/
theorem get_properties_wifi_keys (env : Env) (w : World) (msg : DBusMessage)
    (hpub : ¬ msg.privilege connman_security_privilege.PUBLIC < 0)
    (halloc : env.dbus_message_new_method_return = true) :
    (∀ v, ("WiFi.SSID", v) ∈ (get_properties env w msg).entries ↔
      ∃ ssid, w.network.wifi.ssid = some ssid ∧ w.network.wifi.ssid_len > 0 ∧
        v = dbus_value.byte_array (ssid.take w.network.wifi.ssid_len.toNat)) ∧
    (∀ v, ("WiFi.Mode", v) ∈ (get_properties env w msg).entries ↔
      ∃ mode, w.network.wifi.mode = some mode ∧ v = dbus_value.string mode) ∧
    (∀ v, ("WiFi.Security", v) ∈ (get_properties env w msg).entries ↔
      ∃ security, w.network.wifi.security = some security ∧
        v = dbus_value.string security) ∧
    (∀ type : connman_network_type,
      get_properties env { w with network := { w.network with type := type } } msg
        = get_properties env w msg) := by
  refine ⟨?_, ?_, ?_, ?_⟩
  · intro v
    rw [get_properties_mem env w msg hpub halloc "WiFi.SSID" v (Or.inl rfl)]
    simp
  · intro v
    rw [get_properties_mem env w msg hpub halloc "WiFi.Mode" v (Or.inr (Or.inl rfl))]
    simp
  · intro v
    rw [get_properties_mem env w msg hpub halloc "WiFi.Security" v (Or.inr (Or.inr rfl))]
    simp
  · intro type
    simp [get_properties]

/-- Witness for C21 (amended): the wimax example network read by a privileged
caller. -/
theorem get_properties_wifi_keys_witness :
    (∀ v, ("WiFi.SSID", v) ∈ (get_properties example_env example_wimax_world
        example_msg).entries ↔
      ∃ ssid, example_wimax_world.network.wifi.ssid = some ssid ∧
        example_wimax_world.network.wifi.ssid_len > 0 ∧
        v = dbus_value.byte_array
          (ssid.take example_wimax_world.network.wifi.ssid_len.toNat)) ∧
    (∀ v, ("WiFi.Mode", v) ∈ (get_properties example_env example_wimax_world
        example_msg).entries ↔
      ∃ mode, example_wimax_world.network.wifi.mode = some mode ∧
        v = dbus_value.string mode) ∧
    (∀ v, ("WiFi.Security", v) ∈ (get_properties example_env example_wimax_world
        example_msg).entries ↔
      ∃ security, example_wimax_world.network.wifi.security = some security ∧
        v = dbus_value.string security) ∧
    (∀ type : connman_network_type,
      get_properties example_env
          { example_wimax_world with
            network := { example_wimax_world.network with type := type } } example_msg
        = get_properties example_env example_wimax_world example_msg) :=
  get_properties_wifi_keys example_env example_wimax_world example_msg (by decide) rfl

/-! ## C22: the SSID blob and its length -/

theorem example_big_blob_length : example_big_blob.length = 2147483648 :=
  List.length_replicate _ _

/-- C22 (evaluation at the failing input): after `connman_network_set_blob`
with a blob of 2147483648 bytes (allocation succeeding) the `int` field
`ssid_len` holds -2147483648, which is not the length of the stored blob. -/
theorem set_blob_length_wraps :
    (connman_network_set_blob example_env example_network "WiFi.SSID" example_big_blob
        2147483648).1.wifi.ssid_len = -2147483648 ∧
    ssid_length (connman_network_set_blob example_env example_network "WiFi.SSID"
        example_big_blob 2147483648).1 = 2147483648 ∧
    (connman_network_set_blob example_env example_network "WiFi.SSID" example_big_blob
        2147483648).1.wifi.ssid_len
      ≠ (ssid_length (connman_network_set_blob example_env example_network "WiFi.SSID"
        example_big_blob 2147483648).1 : Int) := by
  have hlen := example_big_blob_length
  have h1 : (connman_network_set_blob example_env example_network "WiFi.SSID" example_big_blob
      2147483648).1.wifi.ssid_len = -2147483648 := by
    simp [connman_network_set_blob, example_env, int_wrap]
  have h2 : ssid_length (connman_network_set_blob example_env example_network "WiFi.SSID"
      example_big_blob 2147483648).1 = 2147483648 := by
    simp [connman_network_set_blob, example_env, ssid_length, hlen]
  refine ⟨h1, h2, ?_⟩
  rw [h1, h2]
  decide

/-- One call of `connman_network_set_blob` with a size that fits the `int`
field keeps `ssid_len` equal to the length of the stored blob, and 0 exactly
when no blob is stored. -/
theorem blob_op_step_length (env : Env) (network : connman_network) (op : blob_op)
    (hdata : op.size ≤ op.data.length) (hsize : op.size < 2147483648)
    (hinv : network.wifi.ssid_len = (ssid_length network : Int) ∧
      (network.wifi.ssid_len = 0 ↔ network.wifi.ssid = none)) :
    (blob_op.step env network op).wifi.ssid_len
        = (ssid_length (blob_op.step env network op) : Int) ∧
    ((blob_op.step env network op).wifi.ssid_len = 0 ↔
      (blob_op.step env network op).wifi.ssid = none) := by
  by_cases hk : op.key = "WiFi.SSID"
  · by_cases ha : op.size ≠ 0 ∧ op.g_try_malloc = true
    · have hw : int_wrap (op.size : Int) = (op.size : Int) :=
        int_wrap_of_fits _ (by omega) (by omega)
      have hmin : min op.size op.data.length = op.size := Nat.min_eq_left hdata
      have hne : (op.size : Int) ≠ 0 := by
        have := ha.1
        omega
      simp [blob_op.step, connman_network_set_blob, hk, ha, hw, ssid_length, hmin, hne]
    · simp [blob_op.step, connman_network_set_blob, hk, ha, ssid_length]
  · simp only [blob_op.step, connman_network_set_blob, hk, if_false]
    exact hinv

/-- The invariant of `blob_op_step_length` over a sequence of calls. -/
theorem blob_op_run_length (env : Env) (ops : List blob_op) :
    ∀ network : connman_network,
      (∀ op ∈ ops, op.size ≤ op.data.length ∧ op.size < 2147483648) →
      (network.wifi.ssid_len = (ssid_length network : Int) ∧
        (network.wifi.ssid_len = 0 ↔ network.wifi.ssid = none)) →
      (blob_op.run env ops network).wifi.ssid_len
          = (ssid_length (blob_op.run env ops network) : Int) ∧
      ((blob_op.run env ops network).wifi.ssid_len = 0 ↔
        (blob_op.run env ops network).wifi.ssid = none) := by
  induction ops with
  | nil => intro network _ hinv; exact hinv
  | cons op ops ih =>
    intro network hops hinv
    have hop := hops op (List.mem_cons_self op ops)
    exact ih _ (fun o ho => hops o (List.mem_cons_of_mem op ho))
      (blob_op_step_length env network op hop.1 hop.2 hinv)

/-- What holds of the SSID blob: for every byte sequence `data` of length
`size` (an `unsigned int`), after `connman_network_set_blob (network, "WiFi.SSID", data,
size)` with the allocation succeeding, `connman_network_get_blob` gives back
the bytes of `data` and `n = size`; and in every state reached from
`connman_network_create` by calls of `connman_network_set_blob` whose sizes
are below 2147483648 (and not beyond their data), `ssid_len` equals the length
of the stored blob and is 0 exactly when no blob is stored. -/
theorem set_get_blob (env : Env) (network : connman_network) (data : List Nat) (size : Nat)
    (ops : List blob_op) (identifier : String) (type : connman_network_type) (index : Int)
    (hlen : data.length = size) (hsize : size < 4294967296)
    (halloc : env.g_try_malloc = true)
    (hops : ∀ op ∈ ops, op.size ≤ op.data.length ∧ op.size < 2147483648) :
    (blob_bytes (connman_network_get_blob
        (connman_network_set_blob env network "WiFi.SSID" data size).1 "WiFi.SSID") = data ∧
     (connman_network_get_blob
        (connman_network_set_blob env network "WiFi.SSID" data size).1 "WiFi.SSID").2
       = some size) ∧
    ((blob_op.run env ops (connman_network_create identifier type index)).wifi.ssid_len
        = (ssid_length (blob_op.run env ops (connman_network_create identifier type index))
            : Int) ∧
     ((blob_op.run env ops (connman_network_create identifier type index)).wifi.ssid_len = 0 ↔
       (blob_op.run env ops (connman_network_create identifier type index)).wifi.ssid
         = none)) := by
  constructor
  · by_cases h0 : size = 0
    · subst h0
      have hd : data = [] := List.length_eq_zero.mp hlen
      simp [connman_network_set_blob, connman_network_get_blob, blob_bytes, hd]
    · have hmod : (int_wrap (size : Int) % 4294967296).toNat = size := by
        unfold int_wrap
        omega
      have htake : List.take size data = data := by
        rw [← hlen]
        exact List.take_length data
      simp [connman_network_set_blob, connman_network_get_blob, blob_bytes, h0, halloc,
        hmod, htake]
  · apply blob_op_run_length env ops _ hops
    simp [connman_network_create, ssid_length]

/-- An instance of `set_get_blob`: the SSID `home` is stored in the example
network, and a sequence of calls is run on a freshly created network. -/
theorem set_get_blob_witness :
    (blob_bytes (connman_network_get_blob
        (connman_network_set_blob example_env example_network "WiFi.SSID"
          [104, 111, 109, 101] 4).1 "WiFi.SSID") = [104, 111, 109, 101] ∧
     (connman_network_get_blob
        (connman_network_set_blob example_env example_network "WiFi.SSID"
          [104, 111, 109, 101] 4).1 "WiFi.SSID").2
       = some 4) ∧
    ((blob_op.run example_env example_blob_ops
          (connman_network_create "net0" connman_network_type.WIFI (-1))).wifi.ssid_len
        = (ssid_length (blob_op.run example_env example_blob_ops
            (connman_network_create "net0" connman_network_type.WIFI (-1))) : Int) ∧
     ((blob_op.run example_env example_blob_ops
          (connman_network_create "net0" connman_network_type.WIFI (-1))).wifi.ssid_len = 0 ↔
       (blob_op.run example_env example_blob_ops
          (connman_network_create "net0" connman_network_type.WIFI (-1))).wifi.ssid
         = none)) :=
  set_get_blob example_env example_network [104, 111, 109, 101] 4 example_blob_ops "net0"
    connman_network_type.WIFI (-1) (by decide) (by decide) (by decide) (by decide)

end Connman
